/-
Verification of the pose-comparison engine (src/utils/poseComparison.js).

The engine is shallowly embedded: JS numbers are modelled as real numbers,
JS arrays as Lean lists, nullable values as `Option`, and every function of
the source file is translated to a Lean definition of the same name.
-/

import Mathlib

noncomputable section

namespace PoseComparison

/-- A 2-D landmark point `[x, y]`. -/

abbrev Pt : Type := ℝ × ℝ

/-- JS `Math.hypot(x, y)`. -/

def hypot (x y : ℝ) : ℝ := Real.sqrt (x * x + y * y)

/-- JS `Math.atan2(y, x)`: the signed planar angle of the vector `(x, y)`. -/

def atan2 (y x : ℝ) : ℝ :=
  if 0 < x then Real.arctan (y / x)
  else if x < 0 then
    (if 0 ≤ y then Real.arctan (y / x) + Real.pi else Real.arctan (y / x) - Real.pi)
  else if 0 < y then Real.pi / 2
  else if y < 0 then -(Real.pi / 2)
  else 0

-- Upper body joints to extract (live 33-point → subset)

def LIVE_UPPER : List ℕ := [11, 12, 13, 14, 15, 16, 23, 24]

-- Equivalent in compact 17-point ref

def REF_UPPER : List ℕ := [4, 3, 6, 5, 8, 7, 16, 15]

-- Arm segment pairs (in subset indices after extraction)

def ARM_SEGMENTS : List (ℕ × ℕ) := [(1, 3), (3, 5), (0, 2), (2, 4)]

-- Hand finger joint angles: 3 angles per finger × 5 fingers = 15

def FINGER_ANGLE_TRIPLETS : List (ℕ × ℕ × ℕ) :=
  [(0, 1, 2), (1, 2, 3), (2, 3, 4),
   (0, 5, 6), (5, 6, 7), (6, 7, 8),
   (0, 9, 10), (9, 10, 11), (10, 11, 12),
   (0, 13, 14), (13, 14, 15), (14, 15, 16),
   (0, 17, 18), (17, 18, 19), (18, 19, 20)]

/-- Array read `points[i]`, total with a junk default (the source only reads
in-bounds indices). -/

def ptAt (points : List Pt) (i : ℕ) : Pt := points.getD i (0, 0)

/-- Source `normalizeSubset`: translate to shoulder center, scale by body size.
Subset indices: shoulders = 0, 1; hips = 6, 7.  Returns `none` for a frame the
source drops (`null`). -/

def normalizeSubset (points : List Pt) : Option (List Pt) :=
  if points.length < 8 then none
  else
    let cx := ((ptAt points 0).1 + (ptAt points 1).1) / 2
    let cy := ((ptAt points 0).2 + (ptAt points 1).2) / 2
    let shoulderW := hypot ((ptAt points 0).1 - (ptAt points 1).1)
                           ((ptAt points 0).2 - (ptAt points 1).2)
    let hipCx := ((ptAt points 6).1 + (ptAt points 7).1) / 2
    let hipCy := ((ptAt points 6).2 + (ptAt points 7).2) / 2
    let torsoH := hypot (cx - hipCx) (cy - hipCy)
    let scale := (shoulderW + torsoH) / 2
    if scale < 0.01 then none
    else some (points.map (fun p => ((p.1 - cx) / scale, (p.2 - cy) / scale)))

/-- Source `angleBetween`: angle at point `b` in triangle `a-b-c`. -/

def angleBetween (a b c : Pt) : ℝ :=
  let ba : Pt := (a.1 - b.1, a.2 - b.2)
  let bc : Pt := (c.1 - b.1, c.2 - b.2)
  let dot := ba.1 * bc.1 + ba.2 * bc.2
  let magBA := hypot ba.1 ba.2
  let magBC := hypot bc.1 bc.2
  if magBA < 1e-6 ∨ magBC < 1e-6 then Real.pi
  else Real.arccos (max (-1) (min 1 (dot / (magBA * magBC))))

/-- Source `segAngle`: segment direction angle (atan2). -/

def segAngle (points : List Pt) (a b : ℕ) : ℝ :=
  atan2 ((ptAt points b).2 - (ptAt points a).2) ((ptAt points b).1 - (ptAt points a).1)

/-- Source `extractFingerAngles`: 15 finger joint angles from a 21-point hand,
or `null`. -/

def extractFingerAngles (hand : Option (List Pt)) : Option (List ℝ) :=
  match hand with
  | none => none
  | some h =>
    if h.length < 21 then none
    else some (FINGER_ANGLE_TRIPLETS.map (fun tr =>
      angleBetween (ptAt h tr.1) (ptAt h tr.2.1) (ptAt h tr.2.2)))

/-- Source `extractFaceFeatures`: 6 face features from a 478-point face mesh,
normalized by face height, or `null`.  The numeric indices are the entries of
the source's `FACE_INDICES` table. -/

def extractFaceFeatures (face : Option (List Pt)) : Option (List ℝ) :=
  match face with
  | none => none
  | some f =>
    if f.length < 468 then none
    else
      let faceH := |(ptAt f 152).2 - (ptAt f 10).2|
      if faceH < 0.001 then none
      else some
        [((ptAt f 33).2 - (ptAt f 70).2) / faceH,
         ((ptAt f 263).2 - (ptAt f 300).2) / faceH,
         ((ptAt f 145).2 - (ptAt f 159).2) / faceH,
         ((ptAt f 374).2 - (ptAt f 386).2) / faceH,
         ((ptAt f 14).2 - (ptAt f 13).2) / faceH,
         |(ptAt f 291).1 - (ptAt f 61).1| / faceH]

/-- Velocity wrap of the source: `while (diff > π) diff -= 2π; while (diff < -π)
diff += 2π`.  The inputs are differences of `atan2` values, hence lie in
`[-2π, 2π]`, so each loop body runs at most once and a single conditional
computes the same value. -/

def wrapVel (d : ℝ) : ℝ :=
  if Real.pi < d then d - 2 * Real.pi
  else if d < -Real.pi then d + 2 * Real.pi
  else d

/-- Result record of `extractFeatures`. -/

structure Features where
  armAngles : List ℝ
  positions : List ℝ
  velocity : List ℝ
  rightFingers : Option (List ℝ)
  leftFingers : Option (List ℝ)
  faceFeatures : Option (List ℝ)
  vector : List ℝ

/-- Source `extractFeatures`: build the 60-slot feature vector of one frame. -/

def extractFeatures (normSubset : List Pt) (rightHand leftHand : Option (List Pt))
    (prevArmAngles : Option (List ℝ)) (face : Option (List Pt)) : Features :=
  let armAngles := ARM_SEGMENTS.map (fun s => segAngle normSubset s.1 s.2)
  let positions := (normSubset.map (fun p => [p.1, p.2])).flatten
  let velocity :=
    match prevArmAngles with
    | some prev => (armAngles.zip prev).map (fun ap => wrapVel (ap.1 - ap.2))
    | none => [0, 0, 0, 0]
  let rightFingers := extractFingerAngles rightHand
  let leftFingers := extractFingerAngles leftHand
  let faceFeatures := extractFaceFeatures face
  let vector := armAngles ++ positions ++ velocity
    ++ (match rightFingers with | some fs => fs | none => List.replicate 15 0)
    ++ (match leftFingers with | some fs => fs | none => List.replicate 15 0)
    ++ (match faceFeatures with | some fs => fs | none => List.replicate 6 0)
  ⟨armAngles, positions, velocity, rightFingers, leftFingers, faceFeatures, vector⟩

/-- A recorded raw frame.  The live recorders (MagicMirror.jsx, DebugMirror.jsx)
push objects `{ pose, rightHand, leftHand, face, _t }`; the capture timestamp
`_t` is modelled by the field `t` (`none` when the field is absent, as on the
objects built by `mirrorLiveFrames`). -/

structure Frame where
  pose : Option (List Pt)
  rightHand : Option (List Pt)
  leftHand : Option (List Pt)
  face : Option (List Pt)
  t : Option ℝ

def MIRROR_SWAP_PAIRS : List (ℕ × ℕ) := [(11, 12), (13, 14), (15, 16), (23, 24)]

/-- JS `x -> 1 - x` reflection of one point. -/

def reflectPt (p : Pt) : Pt := (1 - p.1, p.2)

/-- In-place swap of two array slots, guarded by the source's bounds check. -/

def swapIdx (p : List Pt) (l r : ℕ) : List Pt :=
  if l < p.length ∧ r < p.length then (p.set l (ptAt p r)).set r (ptAt p l)
  else p

/-- Pose half of `mirrorLiveFrames`: reflect all x-coordinates, then swap the
left/right joint pairs. -/

def mirrorPose (p : List Pt) : List Pt :=
  MIRROR_SWAP_PAIRS.foldl (fun q lr => swapIdx q lr.1 lr.2) (p.map reflectPt)

/-- Source `mirrorLiveFrames` on one frame.  The returned object literal has
exactly the four fields below; in particular it carries no `_t` field. -/

def mirrorFrame (f : Frame) : Frame :=
  { pose := f.pose.map mirrorPose,
    rightHand := f.leftHand.map (List.map reflectPt),
    leftHand := f.rightHand.map (List.map reflectPt),
    face := f.face,
    t := none }

/-- Source `mirrorLiveFrames`. -/

def mirrorLiveFrames (frames : List Frame) : List Frame := frames.map mirrorFrame

/-- Subset extraction of `processLiveFrames`: `LIVE_UPPER.map(i => [pose[i][0], pose[i][1]])`. -/

def subsetOfLive (p : List Pt) : List Pt := LIVE_UPPER.map (fun i => ptAt p i)

/-- Subset extraction of `processRefFrames`. -/

def subsetOfRef (p : List Pt) : List Pt := REF_UPPER.map (fun i => ptAt p i)

/-- Loop body of source `processLiveFrames`, with the mutable `prevAngles`
threaded explicitly. -/

def processLiveAux : List Frame → Option (List ℝ) → List (List ℝ)
  | [], _ => []
  | f :: rest, prevAngles =>
    match f.pose with
    | none => processLiveAux rest prevAngles
    | some p =>
      if p.length < 25 then processLiveAux rest prevAngles
      else
        match normalizeSubset (subsetOfLive p) with
        | none => processLiveAux rest prevAngles
        | some norm =>
          let feat := extractFeatures norm f.rightHand f.leftHand prevAngles f.face
          feat.vector :: processLiveAux rest (some feat.armAngles)

/-- Source `processLiveFrames`. -/

def processLiveFrames (frames : List Frame) : List (List ℝ) := processLiveAux frames none

/-- Loop body of source `processRefFrames`. -/

def processRefAux : List Frame → Option (List ℝ) → List (List ℝ)
  | [], _ => []
  | f :: rest, prevAngles =>
    match f.pose with
    | none => processRefAux rest prevAngles
    | some p =>
      if p.length < 17 then processRefAux rest prevAngles
      else
        match normalizeSubset (subsetOfRef p) with
        | none => processRefAux rest prevAngles
        | some norm =>
          let feat := extractFeatures norm f.rightHand f.leftHand prevAngles f.face
          feat.vector :: processRefAux rest (some feat.armAngles)

/-- Source `processRefFrames`. -/

def processRefFrames (frames : List Frame) : List (List ℝ) := processRefAux frames none

-- Feature vector component layout and importance weights (source `COMPONENTS`).

-- The source object's key `end` is a Lean keyword; we call the field `stop`.

structure Component where
  start : ℕ
  stop : ℕ
  weight : ℝ

def COMPONENTS : List Component :=
  [⟨0, 4, 2.5⟩, ⟨4, 20, 2.0⟩, ⟨20, 24, 2.0⟩, ⟨24, 39, 2.5⟩, ⟨39, 54, 2.5⟩, ⟨54, 60, 1.0⟩]

/-- Slot read of `featureDistance`: `i < vec.length ? vec[i] : 0`. -/

def slotVal (v : List ℝ) (i : ℕ) : ℝ := v.getD i 0

/-- The slot indices of one component: `comp.start, ..., comp.end - 1`. -/

def compSlots (c : Component) : List ℕ := List.range' c.start (c.stop - c.start)

/-- The `hasData` flag computed by the inner loop of `featureDistance`: some
slot of the component is nonzero on at least one side. -/

def compHasData (vecA vecB : List ℝ) (c : Component) : Prop :=
  ∃ i ∈ compSlots c, slotVal vecA i ≠ 0 ∨ slotVal vecB i ≠ 0

/-- The `sum` accumulated by the inner loop of `featureDistance`. -/

def compSumSq (vecA vecB : List ℝ) (c : Component) : ℝ :=
  ((compSlots c).map (fun i =>
    (slotVal vecA i - slotVal vecB i) * (slotVal vecA i - slotVal vecB i))).sum

/-- Per-component RMS `Math.sqrt(sum / dims)` of `featureDistance`. -/

def compRms (vecA vecB : List ℝ) (c : Component) : ℝ :=
  Real.sqrt (compSumSq vecA vecB c / ((c.stop - c.start : ℕ) : ℝ))

instance compHasData.inst (vecA vecB : List ℝ) (c : Component) :
    Decidable (compHasData vecA vecB c) := by
  unfold compHasData
  infer_instance

/-- Source `featureDistance`: component-aware weighted distance.  The fold
carries the `(weightedSum, totalWeight)` accumulator of the source loop. -/

def featureDistance (vecA vecB : List ℝ) : ℝ :=
  let acc := COMPONENTS.foldl
    (fun (acc : ℝ × ℝ) c =>
      if compHasData vecA vecB c then
        (acc.1 + c.weight * compRms vecA vecB c, acc.2 + c.weight)
      else acc)
    (0, 0)
  if acc.2 < 0.01 then 0 else acc.1 / acc.2

/-- Source `distToScore`: convert distance to a 0-100 score through a Gaussian
curve with `sigma = 0.9`. -/

def distToScore (dist : ℝ) : ℤ :=
  let sigma : ℝ := 0.9
  let score := 100 * Real.exp (-(dist * dist) / (2 * sigma * sigma))
  max 0 (min 100 (round score))

/-- Result record of source `dtw`.  `avgDistance` lives in `EReal` because the
source uses the value `Infinity` for empty inputs. -/

structure DtwResult where
  score : ℤ
  pathScores : List ℤ
  avgDistance : EReal

/-- The distance matrix of source `dtw`: `distMatrix[i][j]`. -/

def distMatrixOf (seqA seqB : List (List ℝ)) (i j : ℕ) : ℝ :=
  featureDistance (seqA.getD i []) (seqB.getD j [])

/-- The cumulative cost matrix of source `dtw`. -/

def dtwCost (D : ℕ → ℕ → ℝ) : ℕ → ℕ → ℝ
  | 0, 0 => D 0 0
  | 0, j + 1 => dtwCost D 0 j + D 0 (j + 1)
  | i + 1, 0 => dtwCost D i 0 + D (i + 1) 0
  | i + 1, j + 1 =>
    D (i + 1) (j + 1) +
      min (dtwCost D i (j + 1)) (min (dtwCost D (i + 1) j) (dtwCost D i j))
  termination_by i j => (i, j)

/-- Backtrace loop of source `dtw`.  `backtraceRev c i j` is the `path` array
as built by the source (current cell first, `(0,0)` last) when the loop starts
at cell `(i, j)` with cumulative cost matrix `c`.  At an interior cell the
predecessor is chosen diagonal-first, then up, then left, exactly as in the
source's tie-breaking. -/

def backtraceRev (c : ℕ → ℕ → ℝ) : ℕ → ℕ → List (ℕ × ℕ)
  | 0, 0 => [(0, 0)]
  | 0, j + 1 => (0, j + 1) :: backtraceRev c 0 j
  | i + 1, 0 => (i + 1, 0) :: backtraceRev c i 0
  | i + 1, j + 1 =>
    if c i j ≤ c i (j + 1) ∧ c i j ≤ c (i + 1) j then
      (i + 1, j + 1) :: backtraceRev c i j
    else if c i (j + 1) ≤ c (i + 1) j then
      (i + 1, j + 1) :: backtraceRev c i (j + 1)
    else
      (i + 1, j + 1) :: backtraceRev c (i + 1) j
  termination_by i j => (i, j)

/-- The chronological DTW path: the source's `path` after `path.reverse()`. -/

def dtwPath (seqA seqB : List (List ℝ)) : List (ℕ × ℕ) :=
  (backtraceRev (dtwCost (distMatrixOf seqA seqB))
    (seqA.length - 1) (seqB.length - 1)).reverse

/-- Source `dtw`. -/

def dtw (seqA seqB : List (List ℝ)) : DtwResult :=
  if seqA.length = 0 ∨ seqB.length = 0 then ⟨0, [], ⊤⟩
  else
    let path := dtwPath seqA seqB
    let pathDists := path.map (fun ij => distMatrixOf seqA seqB ij.1 ij.2)
    let avgDist := pathDists.sum / (pathDists.length : ℝ)
    let pathScores := pathDists.map distToScore
    let avgScore := (pathScores.map (fun s => (s : ℝ))).sum / (pathScores.length : ℝ)
    ⟨round avgScore, pathScores, (avgDist : ℝ)⟩

/-- Source `computeMotion`: sum of absolute velocity slots (indices 20-23,
bounded by the vector length) over all frames. -/

def computeMotion (featureSeq : List (List ℝ)) : ℝ :=
  (featureSeq.map (fun vec =>
    (((List.range' 20 4).filter (fun i => i < vec.length)).map
      (fun i => |vec.getD i 0|)).sum)).sum

/-- Source `applyMotionPenalty`: hard score caps from the live/ref motion
ratio. -/

def applyMotionPenalty (score : ℤ) (liveMotion refMotion : ℝ) : ℤ :=
  if refMotion < 0.01 then score
  else if liveMotion / refMotion < 0.3 then min score 15
  else if liveMotion / refMotion < 0.5 then min score 30
  else if liveMotion / refMotion < 0.7 then min score 55
  else score

/-- Result record of source `compareDTW`.  The early-return literal of the
source has no `lowMotion` key (JS `undefined`, falsy), modelled as `false`. -/

structure CompareResult where
  score : ℤ
  pathScores : List ℤ
  avgDistance : EReal
  liveFeatureCount : ℕ
  refFeatureCount : ℕ
  mirrored : Bool
  lowMotion : Bool

/-- The `liveFeats` sequence of `compareDTW`. -/

def liveFeatsOf (liveFrames : List Frame) : List (List ℝ) := processLiveFrames liveFrames

/-- The `mirroredFeats` sequence of `compareDTW`. -/

def mirroredFeatsOf (liveFrames : List Frame) : List (List ℝ) :=
  processLiveFrames (mirrorLiveFrames liveFrames)

/-- The `refFeats` sequence of `compareDTW`. -/

def refFeatsOf (refFrames : List Frame) : List (List ℝ) := processRefFrames refFrames

/-- The `resultOriginal` value of `compareDTW`.  The source fallback literal `{ score: 0 }`
carries no other fields; they are never read on this branch. -/

def resultOriginalOf (live ref : List Frame) : DtwResult :=
  if 2 ≤ (liveFeatsOf live).length then dtw (liveFeatsOf live) (refFeatsOf ref)
  else ⟨0, [], ⊤⟩

/-- The `resultMirrored` value of `compareDTW`. -/

def resultMirroredOf (live ref : List Frame) : DtwResult :=
  if 2 ≤ (mirroredFeatsOf live).length then dtw (mirroredFeatsOf live) (refFeatsOf ref)
  else ⟨0, [], ⊤⟩

/-- The source assignment `useMirrored = resultMirrored.score > resultOriginal.score`. -/

def useMirroredOf (live ref : List Frame) : Bool :=
  decide ((resultOriginalOf live ref).score < (resultMirroredOf live ref).score)

/-- The `best` value of `compareDTW`. -/

def bestOf (live ref : List Frame) : DtwResult :=
  if useMirroredOf live ref then resultMirroredOf live ref else resultOriginalOf live ref

/-- The `bestLiveFeats` sequence of `compareDTW`: the winning live orientation. -/

def bestLiveFeatsOf (live ref : List Frame) : List (List ℝ) :=
  if useMirroredOf live ref then mirroredFeatsOf live else liveFeatsOf live

/-- The `refMotion` value of `compareDTW`. -/

def refMotionOf (ref : List Frame) : ℝ := computeMotion (refFeatsOf ref)

/-- The `liveMotion` value of `compareDTW` (motion of the winning orientation). -/

def liveMotionOf (live ref : List Frame) : ℝ := computeMotion (bestLiveFeatsOf live ref)

/-- The `motionRatio` value of `compareDTW`. -/

def motionRatioOf (live ref : List Frame) : ℝ :=
  if 0.01 < refMotionOf ref then liveMotionOf live ref / refMotionOf ref else 1

/-- Source `compareDTW`. -/

def compareDTW (liveFrames refFrames : List Frame) : CompareResult :=
  if max (liveFeatsOf liveFrames).length (mirroredFeatsOf liveFrames).length < 2 ∨
      (refFeatsOf refFrames).length < 2 then
    ⟨0, [], ⊤, (liveFeatsOf liveFrames).length, (refFeatsOf refFrames).length,
     false, false⟩
  else
    ⟨applyMotionPenalty (bestOf liveFrames refFrames).score
        (liveMotionOf liveFrames refFrames) (refMotionOf refFrames),
     (bestOf liveFrames refFrames).pathScores,
     (bestOf liveFrames refFrames).avgDistance,
     (liveFeatsOf liveFrames).length,
     (refFeatsOf refFrames).length,
     useMirroredOf liveFrames refFrames,
     decide (motionRatioOf liveFrames refFrames < 0.5)⟩

/-- Source `getStarRating`. -/

def getStarRating (score : ℤ) : ℕ :=
  if 70 ≤ score then 3
  else if 61 ≤ score then 2
  else if 31 ≤ score then 1
  else 0

/-- Feedback record: an ordered list of tip strings. -/

structure Feedback where
  tips : List String

/-- Extra tips of the 2-star branch of `generateFeedback`, from the first and
last thirds of the path scores.  JS note: for fewer than 3 path scores the
first third is empty, its average is `NaN` (`0/0`), and both comparisons are
then false; the `k = 0` guard reproduces that.  JS `slice(-0)` is the whole
array, hence the `k = 0` case of `lastThird`. -/

def listAvg (l : List ℤ) : ℝ :=
  ((l.map (fun z => (z : ℝ))).sum) / (l.length : ℝ)

def midTips (ps : List ℤ) : List String :=
  if 0 < ps.length then
    if ps.length / 3 = 0 then []
    else
      if listAvg (if ps.length / 3 = 0 then ps else ps.drop (ps.length - ps.length / 3)) + 10 <
          listAvg (ps.take (ps.length / 3)) then
        ["Try watching the ending part once more."]
      else if listAvg (ps.take (ps.length / 3)) + 10 <
          listAvg (if ps.length / 3 = 0 then ps else ps.drop (ps.length - ps.length / 3)) then
        ["Watch the beginning part once more."]
      else []
  else []

/-- Source `generateFeedback`. -/

def generateFeedback (dtwResult : CompareResult) : Feedback :=
  if dtwResult.liveFeatureCount < 3 then
    ⟨["Let\x27s make sure your upper body is nice and visible. Try stepping back a little!"]⟩
  else if dtwResult.lowMotion then
    ⟨["Try moving your arms along with the video!",
      "Watch the video again and copy the arm movements."]⟩
  else if 86 ≤ dtwResult.score then
    ⟨["Amazing! Perfect sign!"]⟩
  else if 61 ≤ dtwResult.score then
    ⟨"Great signing! Almost perfect!" :: midTips dtwResult.pathScores⟩
  else if 31 ≤ dtwResult.score then
    ⟨["Good try! You\x27re getting closer.",
      "Try matching the speed and shape a little more."]⟩
  else
    ⟨["Let\x27s try again! Watch the video and copy the movements."]⟩

-- ===========================================================
-- Definitions for the verification: the spec-side distance
-- characterisation, the survival predicate, the joint permutation of the
-- mirror swaps, and concrete witness data used by the theorems below.
-- ===========================================================

def fillP : Pt := (1/2, 0)

def shP : Pt := (1/2, 1/4)

def elP : Pt := (1/2, 1/2)

def wrDownP : Pt := (1/2, 3/4)

def wrUpP : Pt := (1/2, 1/4)

def hipP : Pt := (1/2, 3/4)

def livePoseDown : List Pt :=
  [fillP, fillP, fillP, fillP, fillP, fillP, fillP, fillP, fillP, fillP, fillP,
   shP, shP, elP, elP, wrDownP, wrDownP,
   fillP, fillP, fillP, fillP, fillP, fillP, hipP, hipP]

def normD : List Pt := [(0,0),(0,0),(0,1),(0,1),(0,2),(0,2),(0,2),(0,2)]

def liveFrameDown : Frame := ⟨some livePoseDown, none, none, none, none⟩

def featVec (arm pos vel : List ℝ) : List ℝ :=
  arm ++ pos ++ vel ++ List.replicate 15 0 ++ List.replicate 15 0 ++ List.replicate 6 0

def armAnglesDown : List ℝ := [Real.pi/2, Real.pi/2, Real.pi/2, Real.pi/2]

def normPosDown : List ℝ := [0,0,0,0,0,1,0,1,0,2,0,2,0,2,0,2]

def vDown0 : List ℝ := featVec armAnglesDown normPosDown [0,0,0,0]

def mirrorSwapFn (k : ℕ) : ℕ :=
  if k = 11 then 12 else if k = 12 then 11
  else if k = 13 then 14 else if k = 14 then 13
  else if k = 15 then 16 else if k = 16 then 15
  else if k = 23 then 24 else if k = 24 then 23 else k

def livePoseUp : List Pt :=
  [fillP, fillP, fillP, fillP, fillP, fillP, fillP, fillP, fillP, fillP, fillP,
   shP, shP, elP, elP, wrUpP, wrUpP,
   fillP, fillP, fillP, fillP, fillP, fillP, hipP, hipP]

def refPoseDown : List Pt :=
  [fillP, fillP, fillP, shP, shP, elP, elP, wrDownP, wrDownP,
   fillP, fillP, fillP, fillP, fillP, fillP, hipP, hipP]

def refPoseUp : List Pt :=
  [fillP, fillP, fillP, shP, shP, elP, elP, wrUpP, wrUpP,
   fillP, fillP, fillP, fillP, fillP, fillP, hipP, hipP]

def liveFrameUp : Frame := ⟨some livePoseUp, none, none, none, none⟩

def refFrameDown : Frame := ⟨some refPoseDown, none, none, none, none⟩

def refFrameUp : Frame := ⟨some refPoseUp, none, none, none, none⟩

def normU : List Pt := [(0,0),(0,0),(0,1),(0,1),(0,0),(0,0),(0,2),(0,2)]

def armAnglesUp : List ℝ := [Real.pi/2, -(Real.pi/2), Real.pi/2, -(Real.pi/2)]

def normPosUp : List ℝ := [0,0,0,0,0,1,0,1,0,0,0,0,0,2,0,2]

def vUpFromDown : List ℝ := featVec armAnglesUp normPosUp [0, -Real.pi, 0, -Real.pi]

def vUp0 : List ℝ := featVec armAnglesUp normPosUp [0, 0, 0, 0]

def vDownFromUp : List ℝ := featVec armAnglesDown normPosDown [0, Real.pi, 0, Real.pi]

def liveSeqLow : List Frame := [liveFrameDown, liveFrameUp, liveFrameUp]

def refSeqMotion : List Frame := [refFrameDown, refFrameUp, refFrameDown]

def specIncluded (vecA vecB : List ℝ) : List Component :=
  COMPONENTS.filter (fun c => compHasData vecA vecB c)

def specWeightedMean (vecA vecB : List ℝ) : ℝ :=
  ((specIncluded vecA vecB).map (fun c => c.weight * compRms vecA vecB c)).sum /
    ((specIncluded vecA vecB).map (fun c => c.weight)).sum

def frameWithTimestamp : Frame := ⟨some [(1/4, 1/3)], none, none, none, some 5⟩

def c10res : CompareResult := ⟨75, [], ((0 : ℝ) : EReal), 3, 3, false, false⟩

def framePasses (f : Frame) : Prop :=
  ∃ p, f.pose = some p ∧ ¬ p.length < 25 ∧
    (normalizeSubset (subsetOfLive p)).isSome = true

-- ===========================================================
-- Lemmas
-- ===========================================================

lemma hypot_zero_abs (y : ℝ) : hypot 0 y = |y| := by
  unfold hypot
  rw [show (0:ℝ) * 0 + y * y = y ^ 2 by ring, Real.sqrt_sq_eq_abs]

lemma atan2_up (y : ℝ) (hy : 0 < y) : atan2 y 0 = Real.pi / 2 := by
  unfold atan2
  rw [if_neg (by norm_num), if_neg (by norm_num), if_pos hy]

lemma atan2_down (y : ℝ) (hy : y < 0) : atan2 y 0 = -(Real.pi / 2) := by
  unfold atan2
  rw [if_neg (by norm_num), if_neg (by norm_num), if_neg (by exact not_lt.mpr hy.le), if_pos hy]

lemma normalizeSubset_vert (ey wy : ℝ) :
    normalizeSubset [(1/2, 1/4), (1/2, 1/4), (1/2, ey), (1/2, ey),
                     (1/2, wy), (1/2, wy), (1/2, 3/4), (1/2, 3/4)] =
    some [(0, 0), (0, 0), (0, 4*ey - 1), (0, 4*ey - 1),
          (0, 4*wy - 1), (0, 4*wy - 1), (0, 2), (0, 2)] := by
  unfold normalizeSubset
  simp only [ptAt, List.getD_cons_zero, List.getD_cons_succ]
  rw [if_neg (by norm_num)]
  rw [show ((1:ℝ)/2 - 1/2) = 0 by norm_num, show ((1:ℝ)/4 - 1/4) = 0 by norm_num]
  rw [show ((1:ℝ)/2 + 1/2) / 2 - ((1:ℝ)/2 + 1/2) / 2 = 0 by norm_num]
  rw [show ((1:ℝ)/4 + 1/4) / 2 - ((3:ℝ)/4 + 3/4) / 2 = -(1/2) by norm_num]
  rw [hypot_zero_abs, hypot_zero_abs, abs_zero, abs_neg,
    abs_of_nonneg (by norm_num : (0:ℝ) ≤ 1/2)]
  norm_num
  ring_nf
  exact ⟨trivial, trivial⟩

lemma normalizeSubset_down :
    normalizeSubset (subsetOfLive livePoseDown) = some normD := by
  have h1 : subsetOfLive livePoseDown =
      [(1/2, 1/4), (1/2, 1/4), (1/2, (1:ℝ)/2), (1/2, 1/2),
       (1/2, (3:ℝ)/4), (1/2, 3/4), (1/2, 3/4), (1/2, 3/4)] := rfl
  rw [h1, normalizeSubset_vert]
  norm_num [normD]

lemma extractFeatures_down_none :
    extractFeatures normD none none none none =
      ⟨armAnglesDown, normPosDown, [0,0,0,0], none, none, none, vDown0⟩ := by
  unfold extractFeatures
  simp only [extractFingerAngles, extractFaceFeatures]
  have harm : ARM_SEGMENTS.map (fun s => segAngle normD s.1 s.2) = armAnglesDown := by
    simp only [ARM_SEGMENTS, List.map_cons, List.map_nil, segAngle, normD, ptAt,
      List.getD_cons_zero, List.getD_cons_succ, armAnglesDown]
    norm_num [atan2_up]
  have hpos : (normD.map (fun p => [p.1, p.2])).flatten = normPosDown := by
    simp only [normD, List.map_cons, List.map_nil, List.flatten, normPosDown]
    norm_num
  rw [harm, hpos]
  rfl

lemma wrapVel_zero : wrapVel 0 = 0 := by
  unfold wrapVel
  rw [if_neg (by linarith [Real.pi_pos]), if_neg (by linarith [Real.pi_pos])]

lemma wrapVel_neg_pi : wrapVel (-Real.pi) = -Real.pi := by
  unfold wrapVel
  rw [if_neg (by linarith [Real.pi_pos]), if_neg (by linarith [Real.pi_pos])]

lemma wrapVel_pi : wrapVel Real.pi = Real.pi := by
  unfold wrapVel
  rw [if_neg (by linarith [Real.pi_pos]), if_neg (by linarith [Real.pi_pos])]

lemma extractFeatures_eval (norm : List Pt) (arm pos : List ℝ) (prev : Option (List ℝ))
    (vel : List ℝ)
    (harm : ARM_SEGMENTS.map (fun s => segAngle norm s.1 s.2) = arm)
    (hpos : (norm.map (fun p => [p.1, p.2])).flatten = pos)
    (hvel : (match prev with
             | some pr => (arm.zip pr).map (fun ap => wrapVel (ap.1 - ap.2))
             | none => [0, 0, 0, 0]) = vel) :
    extractFeatures norm none none prev none =
      ⟨arm, pos, vel, none, none, none, featVec arm pos vel⟩ := by
  unfold extractFeatures
  simp only [extractFingerAngles, extractFaceFeatures]
  rw [harm, hpos, hvel]
  rfl

lemma processLiveAux_cons_valid (f : Frame) (rest : List Frame) (prev : Option (List ℝ))
    (p norm : List Pt) (hp : f.pose = some p) (hlen : ¬ p.length < 25)
    (hnorm : normalizeSubset (subsetOfLive p) = some norm) :
    processLiveAux (f :: rest) prev =
      (extractFeatures norm f.rightHand f.leftHand prev f.face).vector ::
        processLiveAux rest (some (extractFeatures norm f.rightHand f.leftHand prev f.face).armAngles) := by
  conv_lhs => rw [processLiveAux]
  rw [hp]
  simp only [if_neg hlen, hnorm]

lemma harmD : ARM_SEGMENTS.map (fun s => segAngle normD s.1 s.2) = armAnglesDown := by
  simp only [ARM_SEGMENTS, List.map_cons, List.map_nil, segAngle, normD, ptAt,
    List.getD_cons_zero, List.getD_cons_succ, armAnglesDown]
  norm_num [atan2_up]

lemma hposD : (normD.map (fun p => [p.1, p.2])).flatten = normPosDown := by
  simp only [normD, List.map_cons, List.map_nil, List.flatten, normPosDown]
  norm_num

lemma hvelDD : (armAnglesDown.zip armAnglesDown).map (fun ap => wrapVel (ap.1 - ap.2)) =
    [0, 0, 0, 0] := by
  simp only [armAnglesDown, List.zip_cons_cons, List.zip_nil_right, List.map_cons, List.map_nil,
    sub_self, wrapVel_zero]

lemma processLive_static :
    processLiveFrames [liveFrameDown, liveFrameDown] = [vDown0, vDown0] := by
  unfold processLiveFrames
  rw [processLiveAux_cons_valid _ _ _ livePoseDown normD rfl (by norm_num [livePoseDown])
      normalizeSubset_down]
  simp only [liveFrameDown]
  rw [extractFeatures_eval normD armAnglesDown normPosDown none [0,0,0,0] harmD hposD rfl]
  rw [processLiveAux_cons_valid _ _ _ livePoseDown normD rfl (by norm_num [livePoseDown])
      normalizeSubset_down]
  simp only [liveFrameDown]
  rw [extractFeatures_eval normD armAnglesDown normPosDown (some armAnglesDown) [0,0,0,0]
      harmD hposD hvelDD]
  rw [processLiveAux]
  rfl

lemma innerMotion_vDown0 :
    (((List.range' 20 4).filter (fun i => i < vDown0.length)).map
      (fun i => |vDown0.getD i 0|)).sum = 0 := by
  have h : ((List.range' 20 4).filter (fun i => i < vDown0.length)).map
      (fun i => |vDown0.getD i 0|) = [|(0:ℝ)|, |(0:ℝ)|, |(0:ℝ)|, |(0:ℝ)|] := rfl
  rw [h]; simp

lemma computeMotion_static : computeMotion [vDown0, vDown0] = 0 := by
  simp only [computeMotion, List.map_cons, List.map_nil, List.sum_cons, List.sum_nil]
  rw [innerMotion_vDown0]
  norm_num

lemma compRms_self (v : List ℝ) (c : Component) : compRms v v c = 0 := by
  unfold compRms compSumSq
  have h : ((compSlots c).map (fun i =>
      (slotVal v i - slotVal v i) * (slotVal v i - slotVal v i))).sum = 0 := by
    simp
  rw [h, zero_div, Real.sqrt_zero]

lemma featureDistance_self (v : List ℝ) : featureDistance v v = 0 := by
  have h : ∀ (l : List Component) (tw : ℝ),
      (l.foldl (fun (acc : ℝ × ℝ) c =>
        if compHasData v v c then (acc.1 + c.weight * compRms v v c, acc.2 + c.weight)
        else acc) ((0 : ℝ), tw)).1 = 0 := by
    intro l
    induction l with
    | nil => intro tw; rfl
    | cons c rest ih =>
      intro tw
      simp only [List.foldl_cons]
      by_cases hc : compHasData v v c
      · rw [if_pos hc,
          show ((0 : ℝ) + c.weight * compRms v v c, tw + c.weight) = ((0 : ℝ), tw + c.weight) by
            rw [compRms_self]; norm_num]
        exact ih (tw + c.weight)
      · rw [if_neg hc]
        exact ih tw
  simp only [featureDistance]
  split
  · rfl
  · rw [h COMPONENTS 0]
    exact zero_div _

lemma distToScore_zero : distToScore 0 = 100 := by
  unfold distToScore
  norm_num

lemma dtw_static (v : List ℝ) :
    dtw [v, v] [v, v] = ⟨100, [100, 100], ((0 : ℝ) : EReal)⟩ := by
  have hD : ∀ i j, i ≤ 1 → j ≤ 1 → distMatrixOf [v, v] [v, v] i j = 0 := by
    intro i j hi hj
    interval_cases i <;> interval_cases j <;>
      simp [distMatrixOf, featureDistance_self]
  have hc00 : dtwCost (distMatrixOf [v, v] [v, v]) 0 0 = 0 := by
    rw [dtwCost, hD 0 0 (by norm_num) (by norm_num)]
  have hc01 : dtwCost (distMatrixOf [v, v] [v, v]) 0 1 = 0 := by
    rw [dtwCost, hc00, hD 0 1 (by norm_num) (by norm_num), add_zero]
  have hc10 : dtwCost (distMatrixOf [v, v] [v, v]) 1 0 = 0 := by
    rw [dtwCost, hc00, hD 1 0 (by norm_num) (by norm_num), add_zero]
  have hpath : dtwPath [v, v] [v, v] = [(0, 0), (1, 1)] := by
    unfold dtwPath
    simp only [List.length_cons, List.length_nil]
    rw [backtraceRev]
    rw [if_pos ⟨by rw [hc00, hc01], by rw [hc00, hc10]⟩]
    rw [backtraceRev]
    rfl
  unfold dtw
  rw [if_neg (by norm_num)]
  rw [hpath]
  simp only [List.map_cons, List.map_nil]
  rw [hD 0 0 (by norm_num) (by norm_num), hD 1 1 (by norm_num) (by norm_num)]
  rw [distToScore_zero]
  simp only [List.sum_cons, List.sum_nil, List.length_cons, List.length_nil]
  norm_num

lemma ptAt_eq_getElem (q : List Pt) (i : ℕ) (hi : i < q.length) : ptAt q i = q[i] := by
  unfold ptAt
  rw [List.getD_eq_getElem?_getD, List.getElem?_eq_getElem hi]
  rfl

lemma length_swapIdx (q : List Pt) (l r : ℕ) : (swapIdx q l r).length = q.length := by
  unfold swapIdx
  split <;> simp

lemma getElem?_swapIdx (q : List Pt) (l r k : ℕ) :
    (swapIdx q l r)[k]? =
      if l < q.length ∧ r < q.length then
        q[(if k = l then r else if k = r then l else k)]?
      else q[k]? := by
  unfold swapIdx
  split
  case isTrue h =>
    obtain ⟨hl, hr⟩ := h
    by_cases hkr : k = r
    · subst hkr
      rw [List.getElem?_set_self (by simpa using hr)]
      rw [ptAt_eq_getElem q l hl]
      by_cases hkl : k = l
      · subst hkl
        simp [List.getElem?_eq_getElem hl]
      · simp [hkl, List.getElem?_eq_getElem hl]
    · rw [List.getElem?_set_ne (by exact fun hh => hkr hh.symm)]
      by_cases hkl : k = l
      · subst hkl
        rw [List.getElem?_set_self hl]
        rw [ptAt_eq_getElem q r hr]
        simp [hkr, List.getElem?_eq_getElem hr]
      · rw [List.getElem?_set_ne (by exact fun hh => hkl hh.symm)]
        simp [hkl, hkr]
  case isFalse h =>
    rfl

lemma reflectPt_invol (p : Pt) : reflectPt (reflectPt p) = p := by
  unfold reflectPt
  exact Prod.ext (by ring) rfl

lemma length_mirrorPose (p : List Pt) : (mirrorPose p).length = p.length := by
  unfold mirrorPose MIRROR_SWAP_PAIRS
  simp only [List.foldl_cons, List.foldl_nil]
  simp [length_swapIdx]

lemma mirrorPose_swaps (q : List Pt) :
    mirrorPose q =
      swapIdx (swapIdx (swapIdx (swapIdx (q.map reflectPt) 11 12) 13 14) 15 16) 23 24 := by
  unfold mirrorPose MIRROR_SWAP_PAIRS
  simp only [List.foldl_cons, List.foldl_nil]

lemma swapIdx_invol (q : List Pt) (a b : ℕ) : swapIdx (swapIdx q a b) a b = q := by
  apply List.ext_getElem?
  intro k
  simp only [getElem?_swapIdx, length_swapIdx]
  split_ifs <;> first | rfl | omega | (congr 1; omega)

lemma swapIdx_comm (q : List Pt) (a b c d : ℕ)
    (hac : a ≠ c) (had : a ≠ d) (hbc : b ≠ c) (hbd : b ≠ d) :
    swapIdx (swapIdx q a b) c d = swapIdx (swapIdx q c d) a b := by
  apply List.ext_getElem?
  intro k
  simp only [getElem?_swapIdx, length_swapIdx]
  split_ifs <;> first | rfl | omega | (congr 1; omega)

lemma map_swapIdx (f : Pt → Pt) (q : List Pt) (l r : ℕ) :
    (swapIdx q l r).map f = swapIdx (q.map f) l r := by
  unfold swapIdx
  by_cases h : l < q.length ∧ r < q.length
  · rw [if_pos h, if_pos (by simpa using h)]
    rw [List.map_set, List.map_set]
    rw [ptAt_eq_getElem q r h.2, ptAt_eq_getElem q l h.1,
      ptAt_eq_getElem (q.map f) r (by simpa using h.2),
      ptAt_eq_getElem (q.map f) l (by simpa using h.1)]
    simp
  · rw [if_neg h, if_neg (by simpa using h)]

lemma map_map_reflectPt (q : List Pt) : (q.map reflectPt).map reflectPt = q := by
  rw [List.map_map]
  have h : reflectPt ∘ reflectPt = id := funext reflectPt_invol
  rw [h, List.map_id]

lemma mirrorPose_invol (p : List Pt) : mirrorPose (mirrorPose p) = p := by
  rw [mirrorPose_swaps (mirrorPose p), mirrorPose_swaps p]
  rw [map_swapIdx reflectPt _ 23 24, map_swapIdx reflectPt _ 15 16,
    map_swapIdx reflectPt _ 13 14, map_swapIdx reflectPt _ 11 12]
  rw [map_map_reflectPt]
  rw [swapIdx_comm _ 23 24 11 12 (by norm_num) (by norm_num) (by norm_num) (by norm_num)]
  rw [swapIdx_comm _ 15 16 11 12 (by norm_num) (by norm_num) (by norm_num) (by norm_num)]
  rw [swapIdx_comm _ 13 14 11 12 (by norm_num) (by norm_num) (by norm_num) (by norm_num)]
  rw [swapIdx_invol _ 11 12]
  rw [swapIdx_comm _ 23 24 13 14 (by norm_num) (by norm_num) (by norm_num) (by norm_num)]
  rw [swapIdx_comm _ 15 16 13 14 (by norm_num) (by norm_num) (by norm_num) (by norm_num)]
  rw [swapIdx_invol _ 13 14]
  rw [swapIdx_comm _ 23 24 15 16 (by norm_num) (by norm_num) (by norm_num) (by norm_num)]
  rw [swapIdx_invol _ 15 16]
  rw [swapIdx_invol _ 23 24]

lemma mirrorFrame_invol (f : Frame) :
    mirrorFrame (mirrorFrame f) = ⟨f.pose, f.rightHand, f.leftHand, f.face, none⟩ := by
  cases f with
  | mk pose rh lh face t =>
    show Frame.mk ((pose.map mirrorPose).map mirrorPose)
      ((rh.map (List.map reflectPt)).map (List.map reflectPt))
      ((lh.map (List.map reflectPt)).map (List.map reflectPt)) face none = _
    congr 1
    · cases pose with
      | none => rfl
      | some p => exact congrArg some (mirrorPose_invol p)
    · cases rh with
      | none => rfl
      | some q => exact congrArg some (map_map_reflectPt q)
    · cases lh with
      | none => rfl
      | some q => exact congrArg some (map_map_reflectPt q)

lemma hypot_neg_left (a b : ℝ) : hypot (-a) b = hypot a b := by
  unfold hypot
  ring_nf

lemma hypot_neg_right (a b : ℝ) : hypot a (-b) = hypot a b := by
  unfold hypot
  ring_nf

lemma normalizeSubset_mirror8 (a b c d e f g h : Pt) :
    (normalizeSubset [reflectPt b, reflectPt a, reflectPt d, reflectPt c,
                      reflectPt f, reflectPt e, reflectPt h, reflectPt g]).isSome =
    (normalizeSubset [a, b, c, d, e, f, g, h]).isSome := by
  unfold normalizeSubset
  rw [if_neg (show ¬(([reflectPt b, reflectPt a, reflectPt d, reflectPt c,
        reflectPt f, reflectPt e, reflectPt h, reflectPt g] : List Pt).length < 8) by norm_num),
      if_neg (show ¬(([a, b, c, d, e, f, g, h] : List Pt).length < 8) by norm_num)]
  simp only [ptAt, List.getD_cons_zero, List.getD_cons_succ, reflectPt]
  rw [show 1 - b.1 - (1 - a.1) = a.1 - b.1 by ring]
  rw [show b.2 - a.2 = -(a.2 - b.2) by ring, hypot_neg_right]
  rw [show (1 - b.1 + (1 - a.1)) / 2 - (1 - h.1 + (1 - g.1)) / 2 =
      -((a.1 + b.1) / 2 - (g.1 + h.1) / 2) by ring, hypot_neg_left]
  rw [show (b.2 + a.2) / 2 - (h.2 + g.2) / 2 = (a.2 + b.2) / 2 - (g.2 + h.2) / 2 by ring]
  split
  · rfl
  · rfl

lemma getElem?_mirrorPose (p : List Pt) (hp : 25 ≤ p.length) (k : ℕ) :
    (mirrorPose p)[k]? = Option.map reflectPt p[mirrorSwapFn k]? := by
  rw [mirrorPose_swaps]
  simp only [getElem?_swapIdx, length_swapIdx, List.length_map, List.getElem?_map]
  rw [if_pos (show 23 < p.length ∧ 24 < p.length from ⟨by omega, by omega⟩),
      if_pos (show 15 < p.length ∧ 16 < p.length from ⟨by omega, by omega⟩),
      if_pos (show 13 < p.length ∧ 14 < p.length from ⟨by omega, by omega⟩),
      if_pos (show 11 < p.length ∧ 12 < p.length from ⟨by omega, by omega⟩)]
  by_cases h11 : k = 11
  · subst h11; norm_num [mirrorSwapFn]
  by_cases h12 : k = 12
  · subst h12; norm_num [mirrorSwapFn]
  by_cases h13 : k = 13
  · subst h13; norm_num [mirrorSwapFn]
  by_cases h14 : k = 14
  · subst h14; norm_num [mirrorSwapFn]
  by_cases h15 : k = 15
  · subst h15; norm_num [mirrorSwapFn]
  by_cases h16 : k = 16
  · subst h16; norm_num [mirrorSwapFn]
  by_cases h23 : k = 23
  · subst h23; norm_num [mirrorSwapFn]
  by_cases h24 : k = 24
  · subst h24; norm_num [mirrorSwapFn]
  simp [mirrorSwapFn, h11, h12, h13, h14, h15, h16, h23, h24]

lemma ptAt_mirrorPose (p : List Pt) (hp : 25 ≤ p.length) (k : ℕ) (hk : mirrorSwapFn k < p.length) :
    ptAt (mirrorPose p) k = reflectPt (ptAt p (mirrorSwapFn k)) := by
  unfold ptAt
  rw [List.getD_eq_getElem?_getD, List.getD_eq_getElem?_getD, getElem?_mirrorPose p hp k]
  rw [List.getElem?_eq_getElem hk]
  rfl

lemma subsetOfLive_mirrorPose (p : List Pt) (hp : ¬ p.length < 25) :
    subsetOfLive (mirrorPose p) =
      [reflectPt (ptAt p 12), reflectPt (ptAt p 11), reflectPt (ptAt p 14), reflectPt (ptAt p 13),
       reflectPt (ptAt p 16), reflectPt (ptAt p 15), reflectPt (ptAt p 24), reflectPt (ptAt p 23)] := by
  have hp' : 25 ≤ p.length := by omega
  show [ptAt (mirrorPose p) 11, ptAt (mirrorPose p) 12, ptAt (mirrorPose p) 13,
        ptAt (mirrorPose p) 14, ptAt (mirrorPose p) 15, ptAt (mirrorPose p) 16,
        ptAt (mirrorPose p) 23, ptAt (mirrorPose p) 24] = _
  rw [ptAt_mirrorPose p hp' 11 (by rw [show mirrorSwapFn 11 = 12 from rfl]; omega),
      ptAt_mirrorPose p hp' 12 (by rw [show mirrorSwapFn 12 = 11 from rfl]; omega),
      ptAt_mirrorPose p hp' 13 (by rw [show mirrorSwapFn 13 = 14 from rfl]; omega),
      ptAt_mirrorPose p hp' 14 (by rw [show mirrorSwapFn 14 = 13 from rfl]; omega),
      ptAt_mirrorPose p hp' 15 (by rw [show mirrorSwapFn 15 = 16 from rfl]; omega),
      ptAt_mirrorPose p hp' 16 (by rw [show mirrorSwapFn 16 = 15 from rfl]; omega),
      ptAt_mirrorPose p hp' 23 (by rw [show mirrorSwapFn 23 = 24 from rfl]; omega),
      ptAt_mirrorPose p hp' 24 (by rw [show mirrorSwapFn 24 = 23 from rfl]; omega)]
  rfl

lemma normalizeSubset_mirror_isSome (p : List Pt) (hp : ¬ p.length < 25) :
    (normalizeSubset (subsetOfLive (mirrorPose p))).isSome =
      (normalizeSubset (subsetOfLive p)).isSome := by
  rw [subsetOfLive_mirrorPose p hp]
  rw [show subsetOfLive p = [ptAt p 11, ptAt p 12, ptAt p 13, ptAt p 14,
       ptAt p 15, ptAt p 16, ptAt p 23, ptAt p 24] from rfl]
  exact normalizeSubset_mirror8 (ptAt p 11) (ptAt p 12) (ptAt p 13) (ptAt p 14)
    (ptAt p 15) (ptAt p 16) (ptAt p 23) (ptAt p 24)

lemma processLiveAux_cons_none (f : Frame) (rest : List Frame) (prev : Option (List ℝ))
    (hp : f.pose = none) : processLiveAux (f :: rest) prev = processLiveAux rest prev := by
  rw [processLiveAux, hp]

lemma processLiveAux_cons_short (f : Frame) (rest : List Frame) (prev : Option (List ℝ))
    (p : List Pt) (hp : f.pose = some p) (hlen : p.length < 25) :
    processLiveAux (f :: rest) prev = processLiveAux rest prev := by
  rw [processLiveAux, hp]
  simp only [if_pos hlen]

lemma processLiveAux_cons_badnorm (f : Frame) (rest : List Frame) (prev : Option (List ℝ))
    (p : List Pt) (hp : f.pose = some p) (hlen : ¬ p.length < 25)
    (hn : normalizeSubset (subsetOfLive p) = none) :
    processLiveAux (f :: rest) prev = processLiveAux rest prev := by
  rw [processLiveAux, hp]
  simp only [if_neg hlen, hn]

lemma mirrorFrame_pose (f : Frame) : (mirrorFrame f).pose = f.pose.map mirrorPose := rfl

lemma processLiveAux_mirror_length (fs : List Frame) : ∀ prev1 prev2 : Option (List ℝ),
    (processLiveAux (mirrorLiveFrames fs) prev1).length = (processLiveAux fs prev2).length := by
  induction fs with
  | nil => intro _ _; rfl
  | cons f rest ih =>
    intro prev1 prev2
    rw [show mirrorLiveFrames (f :: rest) = mirrorFrame f :: mirrorLiveFrames rest from rfl]
    cases hp : f.pose with
    | none =>
      rw [processLiveAux_cons_none _ _ _ (by rw [mirrorFrame_pose, hp]; rfl),
        processLiveAux_cons_none _ _ _ hp]
      exact ih prev1 prev2
    | some p =>
      have hmp : (mirrorFrame f).pose = some (mirrorPose p) := by
        rw [mirrorFrame_pose, hp]; rfl
      by_cases hlen : p.length < 25
      · rw [processLiveAux_cons_short _ _ _ _ hmp (by rw [length_mirrorPose]; exact hlen),
          processLiveAux_cons_short _ _ _ _ hp hlen]
        exact ih prev1 prev2
      · cases hn : normalizeSubset (subsetOfLive p) with
        | none =>
          have hn' : normalizeSubset (subsetOfLive (mirrorPose p)) = none := by
            have hs : (normalizeSubset (subsetOfLive (mirrorPose p))).isSome = false := by
              rw [normalizeSubset_mirror_isSome p hlen, hn]; rfl
            cases hx : normalizeSubset (subsetOfLive (mirrorPose p)) with
            | none => rfl
            | some y => rw [hx] at hs; exact absurd hs (by simp)
          rw [processLiveAux_cons_badnorm _ _ _ _ hmp
              (by rw [length_mirrorPose]; exact hlen) hn',
            processLiveAux_cons_badnorm _ _ _ _ hp hlen hn]
          exact ih prev1 prev2
        | some norm =>
          have hs : (normalizeSubset (subsetOfLive (mirrorPose p))).isSome = true := by
            rw [normalizeSubset_mirror_isSome p hlen, hn]; rfl
          obtain ⟨norm', hn'⟩ := Option.isSome_iff_exists.mp hs
          rw [processLiveAux_cons_valid _ _ _ _ _ hmp
              (by rw [length_mirrorPose]; exact hlen) hn',
            processLiveAux_cons_valid _ _ _ _ _ hp hlen hn]
          simp only [List.length_cons]
          rw [ih _ _]

lemma backtraceRev_ne_nil (c : ℕ → ℕ → ℝ) (i j : ℕ) : backtraceRev c i j ≠ [] := by
  match i, j with
  | 0, 0 => rw [backtraceRev]; simp
  | 0, j + 1 => rw [backtraceRev]; simp
  | i + 1, 0 => rw [backtraceRev]; simp
  | i + 1, j + 1 => rw [backtraceRev]; split_ifs <;> simp

lemma backtraceRev_head (c : ℕ → ℕ → ℝ) (i j : ℕ) :
    (backtraceRev c i j).head? = some (i, j) := by
  match i, j with
  | 0, 0 => rw [backtraceRev]; rfl
  | 0, j + 1 => rw [backtraceRev]; rfl
  | i + 1, 0 => rw [backtraceRev]; rfl
  | i + 1, j + 1 => rw [backtraceRev]; split_ifs <;> rfl

lemma getLast?_cons_of_ne_nil (x : ℕ × ℕ) (l : List (ℕ × ℕ)) (h : l ≠ []) :
    (x :: l).getLast? = l.getLast? := by
  cases l with
  | nil => exact absurd rfl h
  | cons y t => exact List.getLast?_cons_cons

lemma backtraceRev_getLast (c : ℕ → ℕ → ℝ) :
    ∀ (n i j : ℕ), i + j ≤ n → (backtraceRev c i j).getLast? = some (0, 0) := by
  intro n
  induction n with
  | zero =>
    intro i j h
    have hi : i = 0 := by omega
    have hj : j = 0 := by omega
    subst hi; subst hj
    rw [backtraceRev]
    rfl
  | succ n ih =>
    intro i j h
    match i, j with
    | 0, 0 => rw [backtraceRev]; rfl
    | 0, j + 1 =>
      rw [backtraceRev, getLast?_cons_of_ne_nil _ _ (backtraceRev_ne_nil c 0 j)]
      exact ih 0 j (by omega)
    | i + 1, 0 =>
      rw [backtraceRev, getLast?_cons_of_ne_nil _ _ (backtraceRev_ne_nil c i 0)]
      exact ih i 0 (by omega)
    | i + 1, j + 1 =>
      rw [backtraceRev]
      split_ifs
      · rw [getLast?_cons_of_ne_nil _ _ (backtraceRev_ne_nil c i j)]
        exact ih i j (by omega)
      · rw [getLast?_cons_of_ne_nil _ _ (backtraceRev_ne_nil c i (j + 1))]
        exact ih i (j + 1) (by omega)
      · rw [getLast?_cons_of_ne_nil _ _ (backtraceRev_ne_nil c (i + 1) j)]
        exact ih (i + 1) j (by omega)

lemma backtraceRev_length_le (c : ℕ → ℕ → ℝ) :
    ∀ (n i j : ℕ), i + j ≤ n → (backtraceRev c i j).length ≤ i + j + 1 := by
  intro n
  induction n with
  | zero =>
    intro i j h
    have hi : i = 0 := by omega
    have hj : j = 0 := by omega
    subst hi; subst hj
    rw [backtraceRev]
    simp
  | succ n ih =>
    intro i j h
    match i, j with
    | 0, 0 => rw [backtraceRev]; simp
    | 0, j + 1 =>
      rw [backtraceRev]
      have := ih 0 j (by omega)
      simp only [List.length_cons]
      omega
    | i + 1, 0 =>
      rw [backtraceRev]
      have := ih i 0 (by omega)
      simp only [List.length_cons]
      omega
    | i + 1, j + 1 =>
      rw [backtraceRev]
      have h1 := ih i j (by omega)
      have h2 := ih i (j + 1) (by omega)
      have h3 := ih (i + 1) j (by omega)
      split_ifs <;> simp only [List.length_cons] <;> omega

lemma backtraceRev_length_ge (c : ℕ → ℕ → ℝ) :
    ∀ (n i j : ℕ), i + j ≤ n → max i j + 1 ≤ (backtraceRev c i j).length := by
  intro n
  induction n with
  | zero =>
    intro i j h
    have hi : i = 0 := by omega
    have hj : j = 0 := by omega
    subst hi; subst hj
    rw [backtraceRev]
    simp
  | succ n ih =>
    intro i j h
    match i, j with
    | 0, 0 => rw [backtraceRev]; simp
    | 0, j + 1 =>
      rw [backtraceRev]
      have := ih 0 j (by omega)
      simp only [List.length_cons]
      omega
    | i + 1, 0 =>
      rw [backtraceRev]
      have := ih i 0 (by omega)
      simp only [List.length_cons]
      omega
    | i + 1, j + 1 =>
      rw [backtraceRev]
      have h1 := ih i j (by omega)
      have h2 := ih i (j + 1) (by omega)
      have h3 := ih (i + 1) j (by omega)
      split_ifs <;> simp only [List.length_cons] <;> omega

lemma distToScore_mono (d1 d2 : ℝ) (h0 : 0 ≤ d1) (h : d1 ≤ d2) :
    distToScore d2 ≤ distToScore d1 := by
  simp only [distToScore]
  have hpos : (0:ℝ) < 2 * 0.9 * 0.9 := by norm_num
  have hsq : d1 * d1 ≤ d2 * d2 := mul_self_le_mul_self h0 h
  have hexp : Real.exp (-(d2 * d2) / (2 * 0.9 * 0.9)) ≤
      Real.exp (-(d1 * d1) / (2 * 0.9 * 0.9)) := by
    apply Real.exp_le_exp.mpr
    apply (div_le_div_iff_of_pos_right hpos).mpr
    linarith
  have hround : round (100 * Real.exp (-(d2 * d2) / (2 * 0.9 * 0.9))) ≤
      round (100 * Real.exp (-(d1 * d1) / (2 * 0.9 * 0.9))) := by
    rw [round_eq, round_eq]
    apply Int.floor_le_floor
    linarith
  exact max_le_max le_rfl (min_le_min le_rfl hround)

lemma normalizeSubset_up :
    normalizeSubset (subsetOfLive livePoseUp) = some normU := by
  have h1 : subsetOfLive livePoseUp =
      [(1/2, 1/4), (1/2, 1/4), (1/2, (1:ℝ)/2), (1/2, 1/2),
       (1/2, (1:ℝ)/4), (1/2, 1/4), (1/2, 3/4), (1/2, 3/4)] := rfl
  rw [h1, normalizeSubset_vert]
  norm_num [normU]

lemma normalizeSubset_refDown :
    normalizeSubset (subsetOfRef refPoseDown) = some normD := by
  have h1 : subsetOfRef refPoseDown =
      [(1/2, 1/4), (1/2, 1/4), (1/2, (1:ℝ)/2), (1/2, 1/2),
       (1/2, (3:ℝ)/4), (1/2, 3/4), (1/2, 3/4), (1/2, 3/4)] := rfl
  rw [h1, normalizeSubset_vert]
  norm_num [normD]

lemma normalizeSubset_refUp :
    normalizeSubset (subsetOfRef refPoseUp) = some normU := by
  have h1 : subsetOfRef refPoseUp =
      [(1/2, 1/4), (1/2, 1/4), (1/2, (1:ℝ)/2), (1/2, 1/2),
       (1/2, (1:ℝ)/4), (1/2, 1/4), (1/2, 3/4), (1/2, 3/4)] := rfl
  rw [h1, normalizeSubset_vert]
  norm_num [normU]

lemma harmU : ARM_SEGMENTS.map (fun s => segAngle normU s.1 s.2) = armAnglesUp := by
  simp only [ARM_SEGMENTS, List.map_cons, List.map_nil, segAngle, normU, ptAt,
    List.getD_cons_zero, List.getD_cons_succ, armAnglesUp]
  norm_num [atan2_up, atan2_down]

lemma hposU : (normU.map (fun p => [p.1, p.2])).flatten = normPosUp := by
  simp only [normU, List.map_cons, List.map_nil, List.flatten, normPosUp]
  norm_num

lemma hvelUD : (armAnglesUp.zip armAnglesDown).map (fun ap => wrapVel (ap.1 - ap.2)) =
    [0, -Real.pi, 0, -Real.pi] := by
  simp only [armAnglesUp, armAnglesDown, List.zip_cons_cons, List.zip_nil_right,
    List.map_cons, List.map_nil, sub_self, wrapVel_zero]
  rw [show -(Real.pi/2) - Real.pi/2 = -Real.pi by ring, wrapVel_neg_pi]

lemma hvelUU : (armAnglesUp.zip armAnglesUp).map (fun ap => wrapVel (ap.1 - ap.2)) =
    [0, 0, 0, 0] := by
  simp only [armAnglesUp, List.zip_cons_cons, List.zip_nil_right, List.map_cons, List.map_nil,
    sub_self, wrapVel_zero]

lemma hvelDU : (armAnglesDown.zip armAnglesUp).map (fun ap => wrapVel (ap.1 - ap.2)) =
    [0, Real.pi, 0, Real.pi] := by
  simp only [armAnglesDown, armAnglesUp, List.zip_cons_cons, List.zip_nil_right,
    List.map_cons, List.map_nil, sub_self, wrapVel_zero]
  rw [show Real.pi/2 - -(Real.pi/2) = Real.pi by ring, wrapVel_pi]

lemma processLive_lowMotion :
    processLiveFrames [liveFrameDown, liveFrameUp, liveFrameUp] =
      [vDown0, vUpFromDown, vUp0] := by
  unfold processLiveFrames
  rw [processLiveAux_cons_valid _ _ _ livePoseDown normD rfl (by norm_num [livePoseDown])
      normalizeSubset_down]
  simp only [liveFrameDown]
  rw [extractFeatures_eval normD armAnglesDown normPosDown none [0,0,0,0] harmD hposD rfl]
  rw [processLiveAux_cons_valid _ _ _ livePoseUp normU rfl (by norm_num [livePoseUp])
      normalizeSubset_up]
  simp only [liveFrameUp]
  rw [extractFeatures_eval normU armAnglesUp normPosUp (some armAnglesDown)
      [0, -Real.pi, 0, -Real.pi] harmU hposU hvelUD]
  rw [processLiveAux_cons_valid _ _ _ livePoseUp normU rfl (by norm_num [livePoseUp])
      normalizeSubset_up]
  simp only [liveFrameUp]
  rw [extractFeatures_eval normU armAnglesUp normPosUp (some armAnglesUp)
      [0, 0, 0, 0] harmU hposU hvelUU]
  rw [processLiveAux]
  rfl

lemma processRefAux_cons_valid (f : Frame) (rest : List Frame) (prev : Option (List ℝ))
    (p norm : List Pt) (hp : f.pose = some p) (hlen : ¬ p.length < 17)
    (hnorm : normalizeSubset (subsetOfRef p) = some norm) :
    processRefAux (f :: rest) prev =
      (extractFeatures norm f.rightHand f.leftHand prev f.face).vector ::
        processRefAux rest (some (extractFeatures norm f.rightHand f.leftHand prev f.face).armAngles) := by
  conv_lhs => rw [processRefAux]
  rw [hp]
  simp only [if_neg hlen, hnorm]

lemma processRef_motion :
    processRefFrames [refFrameDown, refFrameUp, refFrameDown] =
      [vDown0, vUpFromDown, vDownFromUp] := by
  unfold processRefFrames
  rw [processRefAux_cons_valid _ _ _ refPoseDown normD rfl (by norm_num [refPoseDown])
      normalizeSubset_refDown]
  simp only [refFrameDown]
  rw [extractFeatures_eval normD armAnglesDown normPosDown none [0,0,0,0] harmD hposD rfl]
  rw [processRefAux_cons_valid _ _ _ refPoseUp normU rfl (by norm_num [refPoseUp])
      normalizeSubset_refUp]
  simp only [refFrameUp]
  rw [extractFeatures_eval normU armAnglesUp normPosUp (some armAnglesDown)
      [0, -Real.pi, 0, -Real.pi] harmU hposU hvelUD]
  rw [processRefAux_cons_valid _ _ _ refPoseDown normD rfl (by norm_num [refPoseDown])
      normalizeSubset_refDown]
  simp only [refFrameDown]
  rw [extractFeatures_eval normD armAnglesDown normPosDown (some armAnglesUp)
      [0, Real.pi, 0, Real.pi] harmD hposD hvelDU]
  rw [processRefAux]
  rfl

lemma processRef_static :
    processRefFrames [refFrameDown, refFrameDown] = [vDown0, vDown0] := by
  unfold processRefFrames
  rw [processRefAux_cons_valid _ _ _ refPoseDown normD rfl (by norm_num [refPoseDown])
      normalizeSubset_refDown]
  simp only [refFrameDown]
  rw [extractFeatures_eval normD armAnglesDown normPosDown none [0,0,0,0] harmD hposD rfl]
  rw [processRefAux_cons_valid _ _ _ refPoseDown normD rfl (by norm_num [refPoseDown])
      normalizeSubset_refDown]
  simp only [refFrameDown]
  rw [extractFeatures_eval normD armAnglesDown normPosDown (some armAnglesDown)
      [0, 0, 0, 0] harmD hposD hvelDD]
  rw [processRefAux]
  rfl

lemma innerMotion_vUpFromDown :
    (((List.range' 20 4).filter (fun i => i < vUpFromDown.length)).map
      (fun i => |vUpFromDown.getD i 0|)).sum = 2 * Real.pi := by
  have h : ((List.range' 20 4).filter (fun i => i < vUpFromDown.length)).map
      (fun i => |vUpFromDown.getD i 0|) =
      [|(0:ℝ)|, |(-Real.pi)|, |(0:ℝ)|, |(-Real.pi)|] := rfl
  rw [h]
  simp only [List.sum_cons, List.sum_nil, abs_zero, abs_neg,
    abs_of_pos Real.pi_pos]
  ring

lemma innerMotion_vDownFromUp :
    (((List.range' 20 4).filter (fun i => i < vDownFromUp.length)).map
      (fun i => |vDownFromUp.getD i 0|)).sum = 2 * Real.pi := by
  have h : ((List.range' 20 4).filter (fun i => i < vDownFromUp.length)).map
      (fun i => |vDownFromUp.getD i 0|) =
      [|(0:ℝ)|, |Real.pi|, |(0:ℝ)|, |Real.pi|] := rfl
  rw [h]
  simp only [List.sum_cons, List.sum_nil, abs_zero, abs_of_pos Real.pi_pos]
  ring

lemma innerMotion_vUp0 :
    (((List.range' 20 4).filter (fun i => i < vUp0.length)).map
      (fun i => |vUp0.getD i 0|)).sum = 0 := by
  have h : ((List.range' 20 4).filter (fun i => i < vUp0.length)).map
      (fun i => |vUp0.getD i 0|) = [|(0:ℝ)|, |(0:ℝ)|, |(0:ℝ)|, |(0:ℝ)|] := rfl
  rw [h]
  simp

lemma computeMotion_live3 :
    computeMotion [vDown0, vUpFromDown, vUp0] = 2 * Real.pi := by
  simp only [computeMotion, List.map_cons, List.map_nil, List.sum_cons, List.sum_nil]
  rw [innerMotion_vDown0, innerMotion_vUpFromDown, innerMotion_vUp0]
  ring

lemma computeMotion_ref3 :
    computeMotion [vDown0, vUpFromDown, vDownFromUp] = 4 * Real.pi := by
  simp only [computeMotion, List.map_cons, List.map_nil, List.sum_cons, List.sum_nil]
  rw [innerMotion_vDown0, innerMotion_vUpFromDown, innerMotion_vDownFromUp]
  ring

lemma swapIdx_id_of_eq (q : List Pt) (l r : ℕ) (h : ptAt q l = ptAt q r) :
    swapIdx q l r = q := by
  apply List.ext_getElem?
  intro k
  rw [getElem?_swapIdx]
  split
  case isTrue hg =>
    obtain ⟨hl, hr⟩ := hg
    split_ifs with hkl hkr
    · rw [hkl, List.getElem?_eq_getElem hr, List.getElem?_eq_getElem hl,
        ← ptAt_eq_getElem q r hr, ← ptAt_eq_getElem q l hl, h]
    · rw [hkr, List.getElem?_eq_getElem hl, List.getElem?_eq_getElem hr,
        ← ptAt_eq_getElem q r hr, ← ptAt_eq_getElem q l hl, h]
    · rfl
  case isFalse hg => rfl

lemma map_reflectPt_livePoseDown : livePoseDown.map reflectPt = livePoseDown := by
  simp only [livePoseDown, fillP, shP, elP, wrDownP, hipP, reflectPt, List.map_cons, List.map_nil]
  norm_num

lemma map_reflectPt_livePoseUp : livePoseUp.map reflectPt = livePoseUp := by
  simp only [livePoseUp, fillP, shP, elP, wrUpP, hipP, reflectPt, List.map_cons, List.map_nil]
  norm_num

lemma mirrorPose_livePoseDown : mirrorPose livePoseDown = livePoseDown := by
  rw [mirrorPose_swaps, map_reflectPt_livePoseDown]
  rw [swapIdx_id_of_eq livePoseDown 11 12 rfl, swapIdx_id_of_eq livePoseDown 13 14 rfl,
    swapIdx_id_of_eq livePoseDown 15 16 rfl, swapIdx_id_of_eq livePoseDown 23 24 rfl]

lemma mirrorPose_livePoseUp : mirrorPose livePoseUp = livePoseUp := by
  rw [mirrorPose_swaps, map_reflectPt_livePoseUp]
  rw [swapIdx_id_of_eq livePoseUp 11 12 rfl, swapIdx_id_of_eq livePoseUp 13 14 rfl,
    swapIdx_id_of_eq livePoseUp 15 16 rfl, swapIdx_id_of_eq livePoseUp 23 24 rfl]

lemma mirrorFrame_liveFrameDown : mirrorFrame liveFrameDown = liveFrameDown := by
  unfold mirrorFrame liveFrameDown
  simp only [Option.map_some', Option.map_none', mirrorPose_livePoseDown]

lemma mirrorFrame_liveFrameUp : mirrorFrame liveFrameUp = liveFrameUp := by
  unfold mirrorFrame liveFrameUp
  simp only [Option.map_some', Option.map_none', mirrorPose_livePoseUp]

lemma mirrorLive_static :
    mirrorLiveFrames [liveFrameDown, liveFrameDown] = [liveFrameDown, liveFrameDown] := by
  simp only [mirrorLiveFrames, List.map_cons, List.map_nil, mirrorFrame_liveFrameDown]

lemma mirrorLive_lowMotion :
    mirrorLiveFrames [liveFrameDown, liveFrameUp, liveFrameUp] =
      [liveFrameDown, liveFrameUp, liveFrameUp] := by
  simp only [mirrorLiveFrames, List.map_cons, List.map_nil, mirrorFrame_liveFrameDown,
    mirrorFrame_liveFrameUp]

lemma liveFeats_static : liveFeatsOf [liveFrameDown, liveFrameDown] = [vDown0, vDown0] :=
  processLive_static

lemma mirroredFeats_static :
    mirroredFeatsOf [liveFrameDown, liveFrameDown] = [vDown0, vDown0] := by
  unfold mirroredFeatsOf
  rw [mirrorLive_static]
  exact processLive_static

lemma refFeats_static : refFeatsOf [refFrameDown, refFrameDown] = [vDown0, vDown0] :=
  processRef_static

lemma resultOriginal_static :
    resultOriginalOf [liveFrameDown, liveFrameDown] [refFrameDown, refFrameDown] =
      ⟨100, [100, 100], ((0 : ℝ) : EReal)⟩ := by
  unfold resultOriginalOf
  rw [liveFeats_static, refFeats_static, if_pos (by norm_num)]
  exact dtw_static vDown0

lemma resultMirrored_static :
    resultMirroredOf [liveFrameDown, liveFrameDown] [refFrameDown, refFrameDown] =
      ⟨100, [100, 100], ((0 : ℝ) : EReal)⟩ := by
  unfold resultMirroredOf
  rw [mirroredFeats_static, refFeats_static, if_pos (by norm_num)]
  exact dtw_static vDown0

lemma useMirrored_static :
    useMirroredOf [liveFrameDown, liveFrameDown] [refFrameDown, refFrameDown] = false := by
  unfold useMirroredOf
  rw [resultOriginal_static, resultMirrored_static]
  exact decide_eq_false (lt_irrefl _)

lemma bestOf_static :
    bestOf [liveFrameDown, liveFrameDown] [refFrameDown, refFrameDown] =
      ⟨100, [100, 100], ((0 : ℝ) : EReal)⟩ := by
  unfold bestOf
  rw [useMirrored_static, if_neg (by simp)]
  exact resultOriginal_static

lemma refMotion_static : refMotionOf [refFrameDown, refFrameDown] = 0 := by
  unfold refMotionOf
  rw [refFeats_static]
  exact computeMotion_static

lemma liveMotion_static :
    liveMotionOf [liveFrameDown, liveFrameDown] [refFrameDown, refFrameDown] = 0 := by
  unfold liveMotionOf bestLiveFeatsOf
  rw [useMirrored_static, if_neg (by simp), liveFeats_static]
  exact computeMotion_static

lemma motionRatio_static :
    motionRatioOf [liveFrameDown, liveFrameDown] [refFrameDown, refFrameDown] = 1 := by
  unfold motionRatioOf
  rw [refMotion_static, if_neg (by norm_num)]

lemma compareDTW_static :
    compareDTW [liveFrameDown, liveFrameDown] [refFrameDown, refFrameDown] =
      ⟨100, [100, 100], ((0 : ℝ) : EReal), 2, 2, false, false⟩ := by
  unfold compareDTW
  rw [if_neg (by rw [liveFeats_static, mirroredFeats_static, refFeats_static]; norm_num)]
  rw [bestOf_static, liveMotion_static, refMotion_static, liveFeats_static, refFeats_static,
    useMirrored_static, motionRatio_static]
  rw [show applyMotionPenalty 100 0 0 = 100 by unfold applyMotionPenalty; rw [if_pos (by norm_num)]]
  rw [decide_eq_false (by norm_num : ¬((1:ℝ) < 0.5))]
  rfl

lemma liveFeats_low : liveFeatsOf liveSeqLow = [vDown0, vUpFromDown, vUp0] :=
  processLive_lowMotion

lemma mirroredFeats_low : mirroredFeatsOf liveSeqLow = [vDown0, vUpFromDown, vUp0] := by
  unfold mirroredFeatsOf liveSeqLow
  rw [mirrorLive_lowMotion]
  exact processLive_lowMotion

lemma refFeats_low : refFeatsOf refSeqMotion = [vDown0, vUpFromDown, vDownFromUp] :=
  processRef_motion

lemma useMirrored_low : useMirroredOf liveSeqLow refSeqMotion = false := by
  unfold useMirroredOf resultOriginalOf resultMirroredOf
  rw [liveFeats_low, mirroredFeats_low, refFeats_low]
  exact decide_eq_false (lt_irrefl _)

lemma refMotion_low : refMotionOf refSeqMotion = 4 * Real.pi := by
  unfold refMotionOf
  rw [refFeats_low]
  exact computeMotion_ref3

lemma liveMotion_low : liveMotionOf liveSeqLow refSeqMotion = 2 * Real.pi := by
  unfold liveMotionOf bestLiveFeatsOf
  rw [useMirrored_low, if_neg (by simp), liveFeats_low]
  exact computeMotion_live3

lemma motionRatio_low : motionRatioOf liveSeqLow refSeqMotion = 1 / 2 := by
  unfold motionRatioOf
  rw [refMotion_low, liveMotion_low,
    if_pos (by nlinarith [Real.pi_gt_three] : (0.01 : ℝ) < 4 * Real.pi)]
  rw [div_eq_iff (by positivity : (4 : ℝ) * Real.pi ≠ 0)]
  ring

lemma guard_low :
    ¬(max (liveFeatsOf liveSeqLow).length (mirroredFeatsOf liveSeqLow).length < 2 ∨
        (refFeatsOf refSeqMotion).length < 2) := by
  rw [liveFeats_low, mirroredFeats_low, refFeats_low]
  norm_num

lemma compareDTW_lowMotion_field (live ref : List Frame)
    (hguard : ¬(max (liveFeatsOf live).length (mirroredFeatsOf live).length < 2 ∨
        (refFeatsOf ref).length < 2)) :
    (compareDTW live ref).lowMotion = decide (motionRatioOf live ref < 0.5) := by
  unfold compareDTW
  rw [if_neg hguard]

lemma lowMotion_low : (compareDTW liveSeqLow refSeqMotion).lowMotion = false := by
  rw [compareDTW_lowMotion_field _ _ guard_low, motionRatio_low]
  exact decide_eq_false (by norm_num)

lemma featureDistance_foldl_char (vecA vecB : List ℝ) (l : List Component) :
    ∀ ws tw : ℝ,
      l.foldl (fun (acc : ℝ × ℝ) c =>
        if compHasData vecA vecB c then
          (acc.1 + c.weight * compRms vecA vecB c, acc.2 + c.weight)
        else acc) (ws, tw) =
      (ws + ((l.filter (fun c => compHasData vecA vecB c)).map
              (fun c => c.weight * compRms vecA vecB c)).sum,
       tw + ((l.filter (fun c => compHasData vecA vecB c)).map
              (fun c => c.weight)).sum) := by
  induction l with
  | nil => intro ws tw; simp
  | cons c rest ih =>
    intro ws tw
    by_cases hc : compHasData vecA vecB c
    · simp only [List.foldl_cons, if_pos hc, List.filter_cons,
        decide_eq_true_eq, hc, if_true, List.map_cons, List.sum_cons]
      rw [ih, Prod.mk.injEq]
      constructor <;> ring
    · simp only [List.foldl_cons, if_neg hc, List.filter_cons,
        decide_eq_true_eq, hc, if_false, List.map_cons, List.sum_cons]
      rw [ih]

lemma COMPONENTS_weight_ge_one : ∀ c ∈ COMPONENTS, (1 : ℝ) ≤ c.weight := by
  intro c hc
  fin_cases hc <;> norm_num

lemma sum_weights_ge_one (l : List Component) (hl : l ≠ [])
    (hw : ∀ c ∈ l, (1 : ℝ) ≤ c.weight) :
    (1 : ℝ) ≤ (l.map (fun c => c.weight)).sum := by
  cases l with
  | nil => exact absurd rfl hl
  | cons c rest =>
    simp only [List.map_cons, List.sum_cons]
    have h1 : (1 : ℝ) ≤ c.weight := hw c (by simp)
    have h2 : (0 : ℝ) ≤ (rest.map (fun c => c.weight)).sum := by
      apply List.sum_nonneg
      intro x hx
      obtain ⟨d, hd, hxd⟩ := List.mem_map.mp hx
      have := hw d (by simp [hd])
      linarith [hxd ▸ this]
    linarith

lemma featureDistance_char (vecA vecB : List ℝ) :
    (specIncluded vecA vecB = [] → featureDistance vecA vecB = 0) ∧
    (specIncluded vecA vecB ≠ [] →
      featureDistance vecA vecB = specWeightedMean vecA vecB) := by
  constructor
  · intro hincl
    simp only [featureDistance]
    rw [featureDistance_foldl_char vecA vecB COMPONENTS 0 0]
    unfold specIncluded at hincl
    rw [hincl]
    norm_num
  · intro hincl
    have hge : (1 : ℝ) ≤ ((specIncluded vecA vecB).map (fun c => c.weight)).sum := by
      apply sum_weights_ge_one _ hincl
      intro c hc
      exact COMPONENTS_weight_ge_one c (List.mem_of_mem_filter hc)
    simp only [featureDistance]
    rw [featureDistance_foldl_char vecA vecB COMPONENTS 0 0]
    unfold specIncluded at hge
    rw [if_neg (by dsimp; linarith)]
    unfold specWeightedMean specIncluded
    dsimp
    rw [zero_add, zero_add]

lemma applyMotionPenalty_le (s : ℤ) (lm rm : ℝ) : applyMotionPenalty s lm rm ≤ s := by
  unfold applyMotionPenalty
  split_ifs <;> simp [min_le_left]

lemma applyMotionPenalty_bands (s : ℤ) (lm rm : ℝ) (hrm : ¬ rm < 0.01) :
    (lm / rm < 0.3 → applyMotionPenalty s lm rm = min s 15) ∧
    (0.3 ≤ lm / rm → lm / rm < 0.5 → applyMotionPenalty s lm rm = min s 30) ∧
    (0.5 ≤ lm / rm → lm / rm < 0.7 → applyMotionPenalty s lm rm = min s 55) ∧
    (0.7 ≤ lm / rm → applyMotionPenalty s lm rm = s) := by
  unfold applyMotionPenalty
  rw [if_neg hrm]
  refine ⟨fun h1 => ?_, fun h1 h2 => ?_, fun h1 h2 => ?_, fun h1 => ?_⟩ <;>
    split_ifs <;> first | rfl | linarith

lemma midTips_mem (ps : List ℤ) (s : String) (h : s ∈ midTips ps) :
    s = "Try watching the ending part once more." ∨
    s = "Watch the beginning part once more." := by
  unfold midTips at h
  split_ifs at h <;>
    first
      | exact absurd h (List.not_mem_nil s)
      | (simp only [List.mem_singleton] at h; tauto)

lemma test_feedback (r : CompareResult) (h1 : 70 ≤ r.score) (h2 : r.score ≤ 85)
    (h3 : r.lowMotion = false) (h4 : 3 ≤ r.liveFeatureCount) :
    getStarRating r.score = 3 ∧
    (generateFeedback r).tips.head? = some ("Great signing! Almost perfect!") ∧
    "Amazing! Perfect sign!" ∉ (generateFeedback r).tips := by
  refine ⟨?_, ?_, ?_⟩
  · unfold getStarRating
    rw [if_pos h1]
  · unfold generateFeedback
    rw [if_neg (by omega), if_neg (by simp [h3]), if_neg (by omega), if_pos (by omega)]
    rfl
  · unfold generateFeedback
    rw [if_neg (by omega), if_neg (by simp [h3]), if_neg (by omega), if_pos (by omega)]
    intro hmem
    rcases List.mem_cons.mp hmem with h | h
    · exact absurd h (by decide)
    · rcases midTips_mem _ _ h with h' | h' <;> exact absurd h' (by decide)

lemma specIncluded_nil : specIncluded [] [] = [] := by
  unfold specIncluded
  rw [List.filter_eq_nil_iff]
  intro c _
  rw [decide_eq_true_eq]
  rintro ⟨i, _, h | h⟩ <;> exact h rfl

/-- C1 counterexample: applying `mirrorLiveFrames` twice does not reproduce the
original sequence exactly.  The live recorders attach a capture-timestamp field
`_t` to every frame, and the object literal built by `mirrorLiveFrames` carries
no such field, so a frame whose timestamp is present is not restored: the claim
"every other frame field is identical to the input" fails at this concrete
one-frame input. -/
theorem c1_counterexample :
    mirrorLiveFrames (mirrorLiveFrames [frameWithTimestamp]) ≠ [frameWithTimestamp] := by
  simp only [mirrorLiveFrames, List.map_cons, List.map_nil]
  rw [mirrorFrame_invol]
  simp [frameWithTimestamp]

/-- C1 amended: applying the mirror transform twice reproduces every data field
the transform handles - every pose coordinate, every hand point set and its
left/right assignment, and the face data - exactly; only the capture timestamp
is dropped (the first application already discards it).  On frames without a
timestamp the double mirror is the identity. -/
theorem c1_amended (frames : List Frame) :
    mirrorLiveFrames (mirrorLiveFrames frames) =
      frames.map (fun f => ⟨f.pose, f.rightHand, f.leftHand, f.face, none⟩) := by
  unfold mirrorLiveFrames
  rw [List.map_map]
  exact List.map_congr_left (fun f _ => mirrorFrame_invol f)

/-- C2: for every raw score in [0, 100] and every pair of motion energies, the
motion penalty never increases the score; when `refMotion` is not near zero
(`¬ refMotion < 0.01`) it caps the score exactly per the ratio bands (ratio
< 0.3 caps at 15, ratio in [0.3, 0.5) caps at 30, ratio in [0.5, 0.7) caps at
55, ratio ≥ 0.7 leaves the score unchanged), and when `refMotion` is near zero
the score is returned unchanged. -/
theorem c2_theorem (s : ℤ) (lm rm : ℝ) (h0 : 0 ≤ s) (h100 : s ≤ 100) :
    applyMotionPenalty s lm rm ≤ s ∧
    (rm < 0.01 → applyMotionPenalty s lm rm = s) ∧
    (¬ rm < 0.01 →
      (lm / rm < 0.3 → applyMotionPenalty s lm rm = min s 15) ∧
      (0.3 ≤ lm / rm → lm / rm < 0.5 → applyMotionPenalty s lm rm = min s 30) ∧
      (0.5 ≤ lm / rm → lm / rm < 0.7 → applyMotionPenalty s lm rm = min s 55) ∧
      (0.7 ≤ lm / rm → applyMotionPenalty s lm rm = s)) :=
  ⟨applyMotionPenalty_le s lm rm,
   fun h => by unfold applyMotionPenalty; rw [if_pos h],
   fun h => applyMotionPenalty_bands s lm rm h⟩

/-- C2 witness: the theorem applied at score 80, live motion 1, ref motion 2
(ratio 0.5, so the 55-cap band applies). -/
theorem c2_witness :
    (0 : ℤ) ≤ 80 ∧ (80 : ℤ) ≤ 100 ∧
    (applyMotionPenalty 80 1 2 ≤ 80 ∧
     ((2 : ℝ) < 0.01 → applyMotionPenalty 80 1 2 = 80) ∧
     (¬ (2 : ℝ) < 0.01 →
       ((1 : ℝ) / 2 < 0.3 → applyMotionPenalty 80 1 2 = min 80 15) ∧
       (0.3 ≤ (1 : ℝ) / 2 → (1 : ℝ) / 2 < 0.5 → applyMotionPenalty 80 1 2 = min 80 30) ∧
       (0.5 ≤ (1 : ℝ) / 2 → (1 : ℝ) / 2 < 0.7 → applyMotionPenalty 80 1 2 = min 80 55) ∧
       (0.7 ≤ (1 : ℝ) / 2 → applyMotionPenalty 80 1 2 = 80))) :=
  ⟨by norm_num, by norm_num, c2_theorem 80 1 2 (by norm_num) (by norm_num)⟩

/-- C3 counterexample: a live sequence with exactly 2 valid feature frames does
not yield the fixed insufficient-tracking result with score 0 - on this
concrete input `compareDTW` runs DTW and returns score 100.  The DTW bypass in
`compareDTW` fires only below 2 valid frames; the 3-frame trackability
threshold lives in `generateFeedback` and affects only the tip text, not the
score. -/
theorem c3_counterexample :
    (compareDTW [liveFrameDown, liveFrameDown] [refFrameDown, refFrameDown]).liveFeatureCount = 2 ∧
    (compareDTW [liveFrameDown, liveFrameDown] [refFrameDown, refFrameDown]).score = 100 := by
  rw [compareDTW_static]
  exact ⟨rfl, rfl⟩

/-- C3 amended: the comparison bypasses DTW and returns the fixed score-0
result exactly when both live orientations have fewer than 2 valid feature
frames or the reference does; separately, `generateFeedback` returns the fixed
insufficient-tracking tip whenever the live valid-frame count is below 3
(independent of reference content), but does not force the score to 0. -/
theorem c3_amended :
    (∀ live ref : List Frame,
      max (liveFeatsOf live).length (mirroredFeatsOf live).length < 2 ∨
          (refFeatsOf ref).length < 2 →
      compareDTW live ref =
        ⟨0, [], ⊤, (liveFeatsOf live).length, (refFeatsOf ref).length, false, false⟩) ∧
    (∀ r : CompareResult, r.liveFeatureCount < 3 →
      (generateFeedback r).tips =
        ["Let\x27s make sure your upper body is nice and visible. Try stepping back a little!"]) := by
  constructor
  · intro live ref h
    unfold compareDTW
    rw [if_pos h]
  · intro r h
    unfold generateFeedback
    rw [if_pos h]

/-- C3 witness: both parts of the amended theorem applied at concrete inputs:
empty frame lists for the DTW bypass, and a result record with
`liveFeatureCount = 0 < 3` for the feedback override. -/
theorem c3_witness :
    (max (liveFeatsOf ([] : List Frame)).length
        (mirroredFeatsOf ([] : List Frame)).length < 2 ∨
      (refFeatsOf ([] : List Frame)).length < 2) ∧
    compareDTW [] [] =
      ⟨0, [], ⊤, (liveFeatsOf ([] : List Frame)).length,
       (refFeatsOf ([] : List Frame)).length, false, false⟩ ∧
    (⟨0, [], ⊤, 0, 0, false, false⟩ : CompareResult).liveFeatureCount < 3 ∧
    (generateFeedback ⟨0, [], ⊤, 0, 0, false, false⟩).tips =
      ["Let\x27s make sure your upper body is nice and visible. Try stepping back a little!"] := by
  have hg : max (liveFeatsOf ([] : List Frame)).length
      (mirroredFeatsOf ([] : List Frame)).length < 2 ∨
      (refFeatsOf ([] : List Frame)).length < 2 := by
    left
    show max ([] : List (List ℝ)).length ([] : List (List ℝ)).length < 2
    norm_num
  exact ⟨hg, c3_amended.1 [] [] hg, by norm_num, c3_amended.2 _ (by norm_num)⟩

/-- C4: for every pair of feature sequences of lengths n ≥ 2 and m ≥ 2, the
DTW backtrace path, after reversal into chronological order, starts at (0, 0)
and ends at (n-1, m-1), and its length is between max n m and n + m - 1
inclusive. -/
theorem c4_theorem (seqA seqB : List (List ℝ)) (hA : 2 ≤ seqA.length)
    (hB : 2 ≤ seqB.length) :
    (dtwPath seqA seqB).head? = some (0, 0) ∧
    (dtwPath seqA seqB).getLast? = some (seqA.length - 1, seqB.length - 1) ∧
    max seqA.length seqB.length ≤ (dtwPath seqA seqB).length ∧
    (dtwPath seqA seqB).length ≤ seqA.length + seqB.length - 1 := by
  unfold dtwPath
  refine ⟨?_, ?_, ?_, ?_⟩
  · rw [List.head?_reverse]
    exact backtraceRev_getLast _ ((seqA.length - 1) + (seqB.length - 1)) _ _ le_rfl
  · rw [List.getLast?_reverse]
    exact backtraceRev_head _ _ _
  · rw [List.length_reverse]
    have := backtraceRev_length_ge (dtwCost (distMatrixOf seqA seqB))
      ((seqA.length - 1) + (seqB.length - 1)) (seqA.length - 1) (seqB.length - 1) le_rfl
    omega
  · rw [List.length_reverse]
    have := backtraceRev_length_le (dtwCost (distMatrixOf seqA seqB))
      ((seqA.length - 1) + (seqB.length - 1)) (seqA.length - 1) (seqB.length - 1) le_rfl
    omega

/-- C4 witness: the theorem applied to two concrete sequences of length 2. -/
theorem c4_witness :
    2 ≤ ([[], []] : List (List ℝ)).length ∧
    ((dtwPath [[], []] [[], []]).head? = some (0, 0) ∧
     (dtwPath [[], []] [[], []]).getLast? =
       some (([[], []] : List (List ℝ)).length - 1, ([[], []] : List (List ℝ)).length - 1) ∧
     max ([[], []] : List (List ℝ)).length ([[], []] : List (List ℝ)).length ≤
       (dtwPath [[], []] [[], []]).length ∧
     (dtwPath [[], []] [[], []]).length ≤
       ([[], []] : List (List ℝ)).length + ([[], []] : List (List ℝ)).length - 1) :=
  ⟨by norm_num, c4_theorem [[], []] [[], []] (by norm_num) (by norm_num)⟩

/-- C5: the distance-to-score mapping `distToScore` is monotonically
non-increasing over non-negative distances, and maps distance 0 to exactly
100. -/
theorem c5_theorem :
    (∀ d1 d2 : ℝ, 0 ≤ d1 → d1 ≤ d2 → distToScore d2 ≤ distToScore d1) ∧
    distToScore 0 = 100 :=
  ⟨fun d1 d2 h0 h => distToScore_mono d1 d2 h0 h, distToScore_zero⟩

/-- C5 witness: the monotonicity conjunct applied at distances 0 and 1. -/
theorem c5_witness :
    (0 : ℝ) ≤ 0 ∧ (0 : ℝ) ≤ 1 ∧ distToScore 1 ≤ distToScore 0 :=
  ⟨le_rfl, by norm_num, c5_theorem.1 0 1 le_rfl (by norm_num)⟩

/-- C6: for every feature vector v (of any contents, including all-zero), the
distance metric applied to the pair (v, v) is 0. -/
theorem c6_theorem (v : List ℝ) : featureDistance v v = 0 := featureDistance_self v

/-- C7: every component whose slots are exactly zero on both sides is excluded
from the distance; the total is the weighted mean over only the included
components (an excluded component contributes nothing, neither to the
numerator nor to the weight total, so it is not counted as a perfect match);
and if no component is included the distance is 0. -/
theorem c7_theorem (vecA vecB : List ℝ) :
    (∀ c ∈ COMPONENTS, ¬ compHasData vecA vecB c → c ∉ specIncluded vecA vecB) ∧
    (specIncluded vecA vecB = [] → featureDistance vecA vecB = 0) ∧
    (specIncluded vecA vecB ≠ [] →
      featureDistance vecA vecB = specWeightedMean vecA vecB) := by
  refine ⟨?_, (featureDistance_char vecA vecB).1, (featureDistance_char vecA vecB).2⟩
  intro c _ hc hmem
  unfold specIncluded at hmem
  exact hc (of_decide_eq_true (List.mem_filter.mp hmem).2)

/-- C7 witness: the no-component-included conjunct applied at the concrete
all-excluded pair of empty vectors. -/
theorem c7_witness :
    specIncluded [] [] = [] ∧ featureDistance [] [] = 0 :=
  ⟨specIncluded_nil, (c7_theorem [] []).2.1 specIncluded_nil⟩

/-- C8 counterexample: there is no threshold t looser than the cap bands
(t ≥ 0.7, the outermost cap band) such that the low-motion flag is set exactly
when the motion ratio falls below t.  At the concrete run `liveSeqLow` vs
`refSeqMotion` the ratio is exactly 0.5 - inside the 55-cap band - yet the
flag is clear, forcing any such t to be at most 0.5. -/
theorem c8_counterexample :
    ¬ ∃ t : ℝ, 0.7 ≤ t ∧
      ∀ live ref : List Frame,
        ¬(max (liveFeatsOf live).length (mirroredFeatsOf live).length < 2 ∨
            (refFeatsOf ref).length < 2) →
        0.01 < refMotionOf ref →
        ((compareDTW live ref).lowMotion = true ↔ motionRatioOf live ref < t) := by
  rintro ⟨t, ht, hall⟩
  have hrm : (0.01 : ℝ) < refMotionOf refSeqMotion := by
    rw [refMotion_low]
    nlinarith [Real.pi_gt_three]
  have h := hall liveSeqLow refSeqMotion guard_low hrm
  rw [lowMotion_low] at h
  have h2 : ¬ motionRatioOf liveSeqLow refSeqMotion < t := by
    intro hlt
    exact absurd (h.mpr hlt) (by simp)
  rw [motionRatio_low] at h2
  have h3 : t ≤ 1 / 2 := not_lt.mp h2
  linarith

/-- C8 amended: in every comparison that is not short-circuited, the
low-motion flag is set exactly when the motion ratio (winning live motion over
reference motion, taken as 1 when the reference motion is near zero) falls
below 0.5 - a threshold that coincides with the middle cap band of the motion
penalty and is stricter than the outermost band (0.7).  The flag depends only
on the ratio, independent of whether a score cap actually fired. -/
theorem c8_amended (live ref : List Frame)
    (hguard : ¬(max (liveFeatsOf live).length (mirroredFeatsOf live).length < 2 ∨
        (refFeatsOf ref).length < 2)) :
    (compareDTW live ref).lowMotion = true ↔ motionRatioOf live ref < 0.5 := by
  rw [compareDTW_lowMotion_field live ref hguard]
  exact ⟨of_decide_eq_true, decide_eq_true⟩

/-- C8 witness: the amended theorem applied at the concrete low-motion run
(live motion 2π against reference motion 4π, ratio 0.5). -/
theorem c8_witness :
    (¬(max (liveFeatsOf liveSeqLow).length (mirroredFeatsOf liveSeqLow).length < 2 ∨
        (refFeatsOf refSeqMotion).length < 2)) ∧
    ((compareDTW liveSeqLow refSeqMotion).lowMotion = true ↔
      motionRatioOf liveSeqLow refSeqMotion < 0.5) :=
  ⟨guard_low, c8_amended liveSeqLow refSeqMotion guard_low⟩

/-- C9: for every live raw frame stream, the original and the mirrored feature
sequences have exactly the same length, and a frame survives the
pose-presence, pose-length and normalization-scale filters after mirroring if
and only if it survives them unmirrored. -/
theorem c9_theorem (frames : List Frame) :
    (processLiveFrames (mirrorLiveFrames frames)).length =
      (processLiveFrames frames).length ∧
    ∀ f : Frame, framePasses (mirrorFrame f) ↔ framePasses f := by
  constructor
  · exact processLiveAux_mirror_length frames none none
  · intro f
    constructor
    · rintro ⟨p', hp', hlen', hnorm'⟩
      rw [mirrorFrame_pose] at hp'
      obtain ⟨p, hp, hmp⟩ := Option.map_eq_some'.mp hp'
      subst hmp
      rw [length_mirrorPose] at hlen'
      rw [normalizeSubset_mirror_isSome p hlen'] at hnorm'
      exact ⟨p, hp, hlen', hnorm'⟩
    · rintro ⟨p, hp, hlen, hnorm⟩
      refine ⟨mirrorPose p, by rw [mirrorFrame_pose, hp]; rfl,
        by rw [length_mirrorPose]; exact hlen, ?_⟩
      rw [normalizeSubset_mirror_isSome p hlen]
      exact hnorm

/-- C10: for every final score s with 70 ≤ s ≤ 85, `getStarRating` returns 3
(the top star tier) while `generateFeedback` for that same score (low-motion
flag clear, at least 3 live feature frames) opens with the second-highest
phrase tier and never emits the top-tier phrase: the star boundary (≥ 70 for 3
stars) and the feedback boundary (≥ 86 for the top phrases) disagree on this
range. -/
theorem c10_theorem (r : CompareResult) (h1 : 70 ≤ r.score) (h2 : r.score ≤ 85)
    (h3 : r.lowMotion = false) (h4 : 3 ≤ r.liveFeatureCount) :
    getStarRating r.score = 3 ∧
    (generateFeedback r).tips.head? = some ("Great signing! Almost perfect!") ∧
    "Amazing! Perfect sign!" ∉ (generateFeedback r).tips :=
  test_feedback r h1 h2 h3 h4

/-- C10 witness: the theorem applied at the concrete result record with score
75. -/
theorem c10_witness :
    70 ≤ c10res.score ∧ c10res.score ≤ 85 ∧ c10res.lowMotion = false ∧
    3 ≤ c10res.liveFeatureCount ∧
    (getStarRating c10res.score = 3 ∧
     (generateFeedback c10res).tips.head? = some ("Great signing! Almost perfect!") ∧
     "Amazing! Perfect sign!" ∉ (generateFeedback c10res).tips) :=
  ⟨by norm_num [c10res], by norm_num [c10res], rfl, by norm_num [c10res],
   c10_theorem c10res (by norm_num [c10res]) (by norm_num [c10res]) rfl
     (by norm_num [c10res])⟩

end PoseComparison
